import Mathlib

/-!
# Target ABI descriptor of the D compiler front end (`src/target.c`)

A shallow embedding of `Target::_init` and of the constant painting helpers of
`src/target.c`, followed by theorems about them.

Conventions of the embedding:

* `global.params` is passed explicitly as a `Param` record.
* The static fields of `Target` form a record that `_init` receives (the state
  before the call) and returns (the state after it).
* `assert` failures are explicit: a function that can reach an assertion
  returns `Except Fatal _`.
* C `int` values are `Int`, `unsigned long long` and `dinteger_t` are `Nat`
  (reduced modulo `2 ^ 64` where the C arithmetic can wrap), `unsigned char`
  is a `Nat` below 256.
* `real_t` (the host's `longdouble`) is a type parameter: nothing in
  `target.c` looks inside a `real_t`, it only obtains such values from the host
  and stores them. Where a statement depends on what the host's conversions
  do, it is made for `ieeeHost`, a host with IEEE 754 `float` and `double`.
-/

namespace Dmd

/-! ## Configuration -/

/-- The fields of `global.params` that `target.c` reads. Each is an independent
`bool` in the source. -/
structure Param where
  isWindows : Bool
  isLinux : Bool
  isOSX : Bool
  isFreeBSD : Bool
  isOpenBSD : Bool
  isDragonFlyBSD : Bool
  isSolaris : Bool
  is64bit : Bool
  isLP64 : Bool
deriving DecidableEq, Repr

/-- The seven operating system families `target.c` recognises. -/
inductive OS where
  | Windows
  | Linux
  | OSX
  | FreeBSD
  | OpenBSD
  | DragonFlyBSD
  | Solaris
deriving DecidableEq, Repr

/-- The `global.params` of a supported configuration: exactly the flag of the
family `os` is set, together with the two width flags. -/
def Param.ofOS (os : OS) (is64bit isLP64 : Bool) : Param where
  isWindows := decide (os = OS.Windows)
  isLinux := decide (os = OS.Linux)
  isOSX := decide (os = OS.OSX)
  isFreeBSD := decide (os = OS.FreeBSD)
  isOpenBSD := decide (os = OS.OpenBSD)
  isDragonFlyBSD := decide (os = OS.DragonFlyBSD)
  isSolaris := decide (os = OS.Solaris)
  is64bit := is64bit
  isLP64 := isLP64

/-- Some operating system family flag of `global.params` is set. -/
def Param.hasFamily (p : Param) : Bool :=
  p.isWindows || p.isLinux || p.isOSX || p.isFreeBSD || p.isOpenBSD
    || p.isDragonFlyBSD || p.isSolaris

/-! ## Fatal paths -/

/-- The ways a function of `target.c` can abort. -/
inductive Fatal where
  /-- An `assert(0)` was reached. -/
  | assert0
  /-- The `assert(e->type->size() == type->size())` of `paintAsType` failed. -/
  | sizeMismatch
  /-- One of the `assert(std::numeric_limits<V>::has_...)` of
  `initFloatConstants` failed. -/
  | hostFloat
  /-- The `assert (type->isTypeBasic())` of `alignsize` failed. -/
  | typeNotBasic
deriving DecidableEq, Repr

/-! ## Host floating point characteristics -/

/-- The members of `std::numeric_limits<V>` that `initFloatConstants` reads,
for one host type `V`; the floating values are given already converted to
`real_t`, as the assignments to the `real_t` fields convert them. -/
structure NumericLimits (real_t : Type) where
  max : real_t
  min : real_t
  has_quiet_NaN : Bool
  quiet_NaN : real_t
  has_signaling_NaN : Bool
  signaling_NaN : real_t
  has_infinity : Bool
  infinity : real_t
  epsilon : real_t
  digits10 : Int
  digits : Int
  max_exponent : Int
  min_exponent : Int
  max_exponent10 : Int
  min_exponent10 : Int

/-- The host's `numeric_limits` of `float`, `double` and `real_t`. -/
structure HostLimits (real_t : Type) where
  flt : NumericLimits real_t
  dbl : NumericLimits real_t
  ldbl : NumericLimits real_t

/-- The three assertions of `initFloatConstants` hold for `V`. -/
def NumericLimits.supported {real_t : Type} (l : NumericLimits real_t) : Bool :=
  l.has_quiet_NaN && l.has_signaling_NaN && l.has_infinity

/-- The assertions of `initFloatConstants` hold for all three host types. -/
def HostLimits.supported {real_t : Type} (h : HostLimits real_t) : Bool :=
  h.flt.supported && h.dbl.supported && h.ldbl.supported

/-- The static members of `Target::FPTypeProperties<T>`. -/
structure FPTypeProperties (real_t : Type) where
  max : real_t
  min_normal : real_t
  nan : real_t
  snan : real_t
  infinity : real_t
  epsilon : real_t
  dig : Int
  mant_dig : Int
  max_exp : Int
  min_exp : Int
  max_10_exp : Int
  min_10_exp : Int

/-- `initFloatConstants<T, V>()`: fills the properties `T` from
`numeric_limits<V>`; the three assertions abort when the host type lacks a
quiet NaN, a signalling NaN or an infinity. -/
def initFloatConstants {real_t : Type} (l : NumericLimits real_t)
    (_old : FPTypeProperties real_t) : Except Fatal (FPTypeProperties real_t) :=
  if !l.has_quiet_NaN then Except.error Fatal.hostFloat
  else if !l.has_signaling_NaN then Except.error Fatal.hostFloat
  else if !l.has_infinity then Except.error Fatal.hostFloat
  else Except.ok {
    max := l.max
    min_normal := l.min
    nan := l.quiet_NaN
    snan := l.signaling_NaN
    infinity := l.infinity
    epsilon := l.epsilon
    dig := l.digits10
    mant_dig := l.digits
    max_exp := l.max_exponent
    min_exp := l.min_exponent
    max_10_exp := l.max_exponent10
    min_10_exp := l.min_exponent10 }

/-! ## The `Target` static fields and `Target::_init` -/

/-- The static data members of `Target` defined in `target.c`. -/
structure Target (real_t : Type) where
  ptrsize : Int
  realsize : Int
  realpad : Int
  realalignsize : Int
  reverseCppOverloads : Bool
  cppExceptions : Bool
  c_longsize : Int
  c_long_doublesize : Int
  classinfosize : Int
  maxStaticDataSize : Nat
  FloatProperties : FPTypeProperties real_t
  DoubleProperties : FPTypeProperties real_t
  RealProperties : FPTypeProperties real_t

/-- `Target::_init()`, statement by statement. `t` is the state of the static
fields before the call. -/
def Target._init {real_t : Type} (host : HostLimits real_t) (params : Param)
    (t : Target real_t) : Except Fatal (Target real_t) := do
  let mut t := t
  t := { t with ptrsize := 4 }
  t := { t with classinfosize := 0x4C }
  t := { t with maxStaticDataSize := 0x7FFFFFFF }
  if params.isLP64 then
    t := { t with ptrsize := 8 }
    t := { t with classinfosize := 0x98 }
  if params.isLinux || params.isFreeBSD
      || params.isOpenBSD || params.isDragonFlyBSD || params.isSolaris then
    t := { t with realsize := 12 }
    t := { t with realpad := 2 }
    t := { t with realalignsize := 4 }
    t := { t with c_longsize := 4 }
  else if params.isOSX then
    t := { t with realsize := 16 }
    t := { t with realpad := 6 }
    t := { t with realalignsize := 16 }
    t := { t with c_longsize := 4 }
  else if params.isWindows then
    t := { t with realsize := 10 }
    t := { t with realpad := 0 }
    t := { t with realalignsize := 2 }
    t := { t with reverseCppOverloads := !params.is64bit }
    t := { t with c_longsize := 4 }
    if t.ptrsize = 4 then
      t := { t with maxStaticDataSize := 0x1000000 }
  else
    throw Fatal.assert0
  if params.is64bit then
    if params.isLinux || params.isFreeBSD || params.isSolaris then
      t := { t with realsize := 16 }
      t := { t with realpad := 6 }
      t := { t with realalignsize := 16 }
      t := { t with c_longsize := 8 }
    else if params.isOSX then
      t := { t with c_longsize := 8 }
  t := { t with c_long_doublesize := t.realsize }
  if params.is64bit && params.isWindows then
    t := { t with c_long_doublesize := 8 }
  t := { t with cppExceptions := params.isLinux || params.isFreeBSD || params.isOSX }
  let fp ← initFloatConstants host.flt t.FloatProperties
  t := { t with FloatProperties := fp }
  let dp ← initFloatConstants host.dbl t.DoubleProperties
  t := { t with DoubleProperties := dp }
  let rp ← initFloatConstants host.ldbl t.RealProperties
  t := { t with RealProperties := rp }
  return t

/-! ## Types, expressions and the host's floating conversions -/

/-- The type tags (`ENUMTY`) that `target.c` names; `other` stands for every
remaining member of the enumeration, which is declared in `mtype.h`. -/
inductive TY where
  | Tvoid
  | Tint8
  | Tuns8
  | Tint16
  | Tuns16
  | Tint32
  | Tuns32
  | Tint64
  | Tuns64
  | Tfloat32
  | Tfloat64
  | Tfloat80
  | Timaginary64
  | Timaginary80
  | Tcomplex32
  | Tcomplex64
  | Tcomplex80
  | other (code : Nat)
deriving DecidableEq, Repr

/-- A `Type` as `target.c` sees it: its tag `ty`, and in `otherSize` the
value `size()` reports when the tag is not one of the six fixed-width scalars
below. -/
structure Type_ where
  ty : TY
  otherSize : Nat
deriving DecidableEq, Repr

/-- Modelled from the spec: `Type::size()` is defined in `mtype.c`, not in
`target.c`. The 32-bit integer and float types occupy 4 bytes and the 64-bit
ones 8 bytes; the size of any other type is data of the type. -/
def Type_.size (t : Type_) : Nat :=
  match t.ty with
  | TY.Tint32 => 4
  | TY.Tuns32 => 4
  | TY.Tfloat32 => 4
  | TY.Tint64 => 8
  | TY.Tuns64 => 8
  | TY.Tfloat64 => 8
  | _ => t.otherSize

/-- A source location. -/
structure Loc where
  filename : String
  linnum : Nat
  charnum : Nat
deriving DecidableEq, Repr

/-- The operand `e` of `paintAsType` as the function observes it: its `loc`
and `type` members and the results of its virtual `toInteger()` and `toReal()`
(the `Expression` classes are defined in `expression.c`). -/
structure Expression (real_t : Type) where
  loc : Loc
  type : Type_
  toInteger : Nat
  toReal : real_t

/-- The expression nodes that `target.c` allocates. -/
inductive NewExpression (real_t : Type) where
  /-- `new IntegerExp(loc, value, type)` -/
  | IntegerExp (loc : Loc) (value : Nat) (type : Type_)
  /-- `new RealExp(loc, value, type)` -/
  | RealExp (loc : Loc) (value : real_t) (type : Type_)

/-- The `type` member of an allocated node. -/
def NewExpression.type {real_t : Type} : NewExpression real_t → Type_
  | NewExpression.IntegerExp _ _ type => type
  | NewExpression.RealExp _ _ type => type

/-- The host's conversions between `real_t` and the `float` and `double`
objects that `encodeReal` and `decodeReal` alias onto the byte buffer. A
`float` or `double` object is given by its object representation, written as
the number whose byte `i` (bits `8 i` to `8 i + 7`) is byte `i` of the object;
on a little-endian host this number is the bit pattern of the value. -/
structure HostFloat (real_t : Type) where
  /-- `ldouble(*p)` for a `float` object. -/
  ldouble_float : Nat → real_t
  /-- `ldouble(*p)` for a `double` object. -/
  ldouble_double : Nat → real_t
  /-- `(float)x`, as the object that is stored. -/
  to_float : real_t → Nat
  /-- `(double)x`, as the object that is stored. -/
  to_double : real_t → Nat

/-! ## `Target::paintAsType` and its helpers -/

/-- The C conversion `(int)` of a `d_uns64`. -/
def toCInt (n : Nat) : Int :=
  if n % 2 ^ 32 < 2 ^ 31 then (n % 2 ^ 32 : Nat) else (n % 2 ^ 32 : Nat) - 2 ^ 32

/-- Store an object of `size` bytes, given by its object representation, at
the start of the buffer: the effect of `*p = x` for `p` aliasing `buffer`. -/
def storeObject (size : Nat) (obj : Nat) (buffer : List Nat) : List Nat :=
  (List.range size).foldl (fun buf i => buf.set i ((obj >>> (i * 8)) % 256)) buffer

/-- Read the object of `size` bytes at the start of the buffer: the value of
`*p` for `p` aliasing `buffer`, as an object representation. -/
def loadObject (size : Nat) (buffer : List Nat) : Nat :=
  (List.range size).foldl (fun v i => v + (buffer.getD i 0 % 256) * 2 ^ (i * 8)) 0

/-- `encodeInteger(e, buffer)`: the loop over `p` from 0 to `size - 1`. -/
def encodeInteger {real_t : Type} (e : Expression real_t) (buffer : List Nat) :
    List Nat :=
  let value := e.toInteger % 2 ^ 64
  let size := toCInt e.type.size
  (List.range size.toNat).foldl
    (fun buffer p =>
      let offset := p
      buffer.set offset ((value >>> (p * 8)) &&& 0xFF))
    buffer

/-- `decodeInteger(loc, type, buffer)`. -/
def decodeInteger {real_t : Type} (loc : Loc) (type : Type_) (buffer : List Nat) :
    NewExpression real_t :=
  let size := toCInt type.size
  let value := (List.range size.toNat).foldl
    (fun value p =>
      let offset := p
      value ||| ((buffer.getD offset 0 <<< (p * 8)) % 2 ^ 64))
    0
  NewExpression.IntegerExp loc value type

/-- `encodeReal(e, buffer)`. -/
def encodeReal {real_t : Type} (host : HostFloat real_t) (e : Expression real_t)
    (buffer : List Nat) : Except Fatal (List Nat) :=
  match e.type.ty with
  | TY.Tfloat32 => Except.ok (storeObject 4 (host.to_float e.toReal) buffer)
  | TY.Tfloat64 => Except.ok (storeObject 8 (host.to_double e.toReal) buffer)
  | _ => Except.error Fatal.assert0

/-- `decodeReal(loc, type, buffer)`. -/
def decodeReal {real_t : Type} (host : HostFloat real_t) (loc : Loc) (type : Type_)
    (buffer : List Nat) : Except Fatal (NewExpression real_t) :=
  match type.ty with
  | TY.Tfloat32 =>
    Except.ok (NewExpression.RealExp loc (host.ldouble_float (loadObject 4 buffer)) type)
  | TY.Tfloat64 =>
    Except.ok (NewExpression.RealExp loc (host.ldouble_double (loadObject 8 buffer)) type)
  | _ => Except.error Fatal.assert0

/-- `Target::paintAsType(e, type)`. -/
def Target.paintAsType {real_t : Type} (host : HostFloat real_t)
    (e : Expression real_t) (type : Type_) : Except Fatal (NewExpression real_t) := do
  let mut buffer := List.replicate 64 0
  if e.type.size ≠ type.size then
    throw Fatal.sizeMismatch
  match e.type.ty with
  | TY.Tint32 => buffer := encodeInteger e buffer
  | TY.Tuns32 => buffer := encodeInteger e buffer
  | TY.Tint64 => buffer := encodeInteger e buffer
  | TY.Tuns64 => buffer := encodeInteger e buffer
  | TY.Tfloat32 => buffer ← encodeReal host e buffer
  | TY.Tfloat64 => buffer ← encodeReal host e buffer
  | _ => throw Fatal.assert0
  match type.ty with
  | TY.Tint32 => return decodeInteger e.loc type buffer
  | TY.Tuns32 => return decodeInteger e.loc type buffer
  | TY.Tint64 => return decodeInteger e.loc type buffer
  | TY.Tuns64 => return decodeInteger e.loc type buffer
  | TY.Tfloat32 => decodeReal host e.loc type buffer
  | TY.Tfloat64 => decodeReal host e.loc type buffer
  | _ => throw Fatal.assert0

/-! ## `Target::alignsize` -/

/-- The C conversion of an `int` to `unsigned`. -/
def toUnsigned (x : Int) : Nat :=
  (x % 2 ^ 32).toNat

/-- `Target::alignsize(type)`. `t` holds the static fields (the function reads
`Target::realalignsize`) and `isTypeBasic` is the result of
`type->isTypeBasic()`, which `mtype.c` defines. The value returned is an
`unsigned`. -/
def Target.alignsize {real_t : Type} (params : Param) (t : Target real_t)
    (type : Type_) (isTypeBasic : Bool) : Except Fatal Nat :=
  if !isTypeBasic then Except.error Fatal.typeNotBasic
  else
    let posix := params.isLinux || params.isOSX || params.isFreeBSD
      || params.isOpenBSD || params.isDragonFlyBSD || params.isSolaris
    let fallback := type.size % 2 ^ 32
    match type.ty with
    | TY.Tfloat80 => Except.ok (toUnsigned t.realalignsize)
    | TY.Timaginary80 => Except.ok (toUnsigned t.realalignsize)
    | TY.Tcomplex80 => Except.ok (toUnsigned t.realalignsize)
    | TY.Tcomplex32 => if posix then Except.ok 4 else Except.ok fallback
    | TY.Tint64 =>
      if posix then Except.ok (if params.is64bit then 8 else 4) else Except.ok fallback
    | TY.Tuns64 =>
      if posix then Except.ok (if params.is64bit then 8 else 4) else Except.ok fallback
    | TY.Tfloat64 =>
      if posix then Except.ok (if params.is64bit then 8 else 4) else Except.ok fallback
    | TY.Timaginary64 =>
      if posix then Except.ok (if params.is64bit then 8 else 4) else Except.ok fallback
    | TY.Tcomplex64 =>
      if posix then Except.ok (if params.is64bit then 8 else 4) else Except.ok fallback
    | _ => Except.ok fallback

/-! ## `Target::critsecsize` -/

/-- `Target::critsecsize()`. -/
def Target.critsecsize (params : Param) : Except Fatal Nat :=
  if params.isWindows then
    Except.ok (if params.isLP64 then 40 else 24)
  else if params.isLinux then
    if params.is64bit then
      Except.ok (if params.isLP64 then 40 else 32)
    else
      Except.ok (if params.isLP64 then 40 else 24)
  else if params.isFreeBSD then
    Except.ok (if params.isLP64 then 8 else 4)
  else if params.isOpenBSD then
    Except.ok (if params.isLP64 then 8 else 4)
  else if params.isDragonFlyBSD then
    Except.ok (if params.isLP64 then 8 else 4)
  else if params.isOSX then
    Except.ok (if params.isLP64 then 64 else 44)
  else if params.isSolaris then
    Except.ok 24
  else
    Except.error Fatal.assert0

/-! ## `Target::va_listType` -/

/-- The `Type` objects that `va_listType` returns. -/
inductive TypeNode where
  /-- `Type::tchar` -/
  | tchar
  /-- `new TypeIdentifier(loc, ident)`, the identifier given by its string. -/
  | TypeIdentifier (loc : Loc) (ident : String)
  /-- `t->pointerTo()` -/
  | pointerTo (t : TypeNode)
deriving DecidableEq, Repr

/-- The default constructed `Loc()`. -/
def Loc.initial : Loc where
  filename := ""
  linnum := 0
  charnum := 0

/-- `Target::va_listType()`. -/
def Target.va_listType (params : Param) : Except Fatal TypeNode :=
  if params.isWindows then
    Except.ok (TypeNode.pointerTo TypeNode.tchar)
  else if params.isLinux ||
      params.isFreeBSD ||
      params.isOpenBSD ||
      params.isDragonFlyBSD ||
      params.isSolaris ||
      params.isOSX then
    if params.is64bit then
      Except.ok (TypeNode.pointerTo (TypeNode.TypeIdentifier Loc.initial "__va_list_tag"))
    else
      Except.ok (TypeNode.pointerTo TypeNode.tchar)
  else
    Except.error Fatal.assert0

/-! ## `Target::checkVectorType` -/

/-- `Target::checkVectorType(sz, type)`. -/
def Target.checkVectorType (params : Param) (sz : Int) (type : Type_) : Int :=
  if !params.is64bit && !params.isOSX then 1
  else if sz != 16 && sz != 32 then 2
  else
    match type.ty with
    | TY.Tvoid => 0
    | TY.Tint8 => 0
    | TY.Tuns8 => 0
    | TY.Tint16 => 0
    | TY.Tuns16 => 0
    | TY.Tint32 => 0
    | TY.Tuns32 => 0
    | TY.Tfloat32 => 0
    | TY.Tint64 => 0
    | TY.Tuns64 => 0
    | TY.Tfloat64 => 0
    | _ => 3

/-! ## `Target::prefixName` -/

/-- The linkage kinds (`LINK`) that `target.c` names; `other` stands for every
remaining member of the enumeration, which is declared in `globals.h`. -/
inductive LINK where
  | LINKc
  | LINKcpp
  | LINKwindows
  | other (code : Nat)
deriving DecidableEq, Repr

/-- The contents of an `OutBuffer`, first byte first. -/
structure OutBuffer where
  data : List Nat
deriving DecidableEq, Repr

/-- Modelled from the spec: `OutBuffer::prependbyte` is defined in
`outbuffer.c`, not in `target.c`. It puts the single byte `b` in front of the
contents of the buffer. -/
def OutBuffer.prependbyte (buf : OutBuffer) (b : Nat) : OutBuffer where
  data := (b % 256) :: buf.data

/-- `Target::prefixName(buf, linkage)`; the result is the buffer after the
call. -/
def Target.prefixName (params : Param) (buf : OutBuffer) (linkage : LINK) :
    OutBuffer :=
  match linkage with
  | LINK.LINKcpp =>
    if params.isOSX then buf.prependbyte '_'.toNat else buf
  | _ => buf

/-! ## A host with IEEE 754 conversions

`encodeReal` and `decodeReal` leave the conversions `(float)x`, `(double)x` and
`ldouble(x)` to the C++ implementation that compiles `target.c`. The host below
is a little-endian one whose `float` and `double` are IEEE 754 binary32 and
binary64 and whose `real_t` holds every `double` exactly, as the x87 extended
format does: widening is exact, narrowing rounds to the nearest value with ties
to even, and a NaN always comes out quiet with its leading payload bits kept. -/

/-- A value of the host's `real_t`: `finite sign mant exp` is the number
`(-1) ^ sign * mant * 2 ^ exp`; the payload of a NaN is the 62 bit field below
the quiet bit of the extended format. -/
inductive HostReal where
  | finite (sign : Bool) (mant : Nat) (exp : Int)
  | infinity (sign : Bool)
  | nan (sign : Bool) (quiet : Bool) (payload : Nat)
deriving DecidableEq, Repr

/-- The number a `real_t` value denotes; `none` for the infinities and NaNs. -/
def HostReal.value : HostReal → Option ℚ
  | HostReal.finite sign mant exp => some ((if sign then -1 else 1) * mant * 2 ^ exp)
  | _ => none

/-- The type tags `paintAsType` handles: `int32`, `uns32`, `int64`, `uns64`,
`float32` and `float64`. -/
def TY.paintable : TY → Bool
  | TY.Tint32 => true
  | TY.Tuns32 => true
  | TY.Tint64 => true
  | TY.Tuns64 => true
  | TY.Tfloat32 => true
  | TY.Tfloat64 => true
  | _ => false

/-- The families that section 4.1 of the specification calls POSIX-like: Linux,
FreeBSD, OpenBSD, DragonFlyBSD and Solaris. -/
def OS.posixLike : OS → Bool
  | OS.Linux => true
  | OS.FreeBSD => true
  | OS.OpenBSD => true
  | OS.DragonFlyBSD => true
  | OS.Solaris => true
  | _ => false

/-- The element type tags that the specification lists as legal for a vector:
`void`, the 8, 16 and 32 bit integers of either signedness, `float32`, the
64 bit integers and `float64`. -/
def TY.vectorElement : TY → Bool
  | TY.Tvoid => true
  | TY.Tint8 => true
  | TY.Tuns8 => true
  | TY.Tint16 => true
  | TY.Tuns16 => true
  | TY.Tint32 => true
  | TY.Tuns32 => true
  | TY.Tfloat32 => true
  | TY.Tint64 => true
  | TY.Tuns64 => true
  | TY.Tfloat64 => true
  | _ => false

/-! ## A sample host and start state

Used to instantiate the theorems below at concrete inputs. -/

/-- Values of a sample `real_t`: `finite m e` stands for `m * 2 ^ e`. -/
inductive SampleReal where
  | finite (m e : Int)
  | infinity
  | nan
  | snan
deriving DecidableEq, Repr

/-- The `numeric_limits` of an x86 host: IEEE binary32, binary64 and the
80-bit extended format. -/
def sampleHost : HostLimits SampleReal where
  flt := {
    max := SampleReal.finite (2 ^ 24 - 1) 104, min := SampleReal.finite 1 (-126),
    has_quiet_NaN := true, quiet_NaN := SampleReal.nan,
    has_signaling_NaN := true, signaling_NaN := SampleReal.snan,
    has_infinity := true, infinity := SampleReal.infinity,
    epsilon := SampleReal.finite 1 (-23), digits10 := 6, digits := 24,
    max_exponent := 128, min_exponent := -125,
    max_exponent10 := 38, min_exponent10 := -37 }
  dbl := {
    max := SampleReal.finite (2 ^ 53 - 1) 971, min := SampleReal.finite 1 (-1022),
    has_quiet_NaN := true, quiet_NaN := SampleReal.nan,
    has_signaling_NaN := true, signaling_NaN := SampleReal.snan,
    has_infinity := true, infinity := SampleReal.infinity,
    epsilon := SampleReal.finite 1 (-52), digits10 := 15, digits := 53,
    max_exponent := 1024, min_exponent := -1021,
    max_exponent10 := 308, min_exponent10 := -307 }
  ldbl := {
    max := SampleReal.finite (2 ^ 64 - 1) 16320, min := SampleReal.finite 1 (-16382),
    has_quiet_NaN := true, quiet_NaN := SampleReal.nan,
    has_signaling_NaN := true, signaling_NaN := SampleReal.snan,
    has_infinity := true, infinity := SampleReal.infinity,
    epsilon := SampleReal.finite 1 (-63), digits10 := 18, digits := 64,
    max_exponent := 16384, min_exponent := -16381,
    max_exponent10 := 4932, min_exponent10 := -4931 }

/-- Zero-initialised floating point properties. -/
def sampleFP : FPTypeProperties SampleReal where
  max := SampleReal.finite 0 0
  min_normal := SampleReal.finite 0 0
  nan := SampleReal.finite 0 0
  snan := SampleReal.finite 0 0
  infinity := SampleReal.finite 0 0
  epsilon := SampleReal.finite 0 0
  dig := 0
  mant_dig := 0
  max_exp := 0
  min_exp := 0
  max_10_exp := 0
  min_10_exp := 0

/-- The static fields of `Target` as the program starts: zero-initialised. -/
def sampleTarget : Target SampleReal where
  ptrsize := 0
  realsize := 0
  realpad := 0
  realalignsize := 0
  reverseCppOverloads := false
  cppExceptions := false
  c_longsize := 0
  c_long_doublesize := 0
  classinfosize := 0
  maxStaticDataSize := 0
  FloatProperties := sampleFP
  DoubleProperties := sampleFP
  RealProperties := sampleFP

/-- The three `initFloatConstants` calls that end `Target::_init`. -/
def Target.floatTail {real_t : Type} (host : HostLimits real_t) (t : Target real_t) :
    Except Fatal (Target real_t) := do
  let fp ← initFloatConstants host.flt t.FloatProperties
  let dp ← initFloatConstants host.dbl t.DoubleProperties
  let rp ← initFloatConstants host.ldbl t.RealProperties
  return { t with FloatProperties := fp, DoubleProperties := dp, RealProperties := rp }

/-! ## Auxiliary facts about `Target::_init` -/

theorem initFloatConstants_ne_assert0 {real_t : Type} (l : NumericLimits real_t)
    (old : FPTypeProperties real_t) :
    initFloatConstants l old ≠ Except.error Fatal.assert0 := by
  unfold initFloatConstants
  cases l.has_quiet_NaN <;> cases l.has_signaling_NaN <;> cases l.has_infinity <;> simp

theorem initFloatConstants_ok {real_t : Type} (l : NumericLimits real_t)
    (old : FPTypeProperties real_t) (h : l.supported = true) :
    ∃ fp, initFloatConstants l old = Except.ok fp := by
  simp only [NumericLimits.supported, Bool.and_eq_true] at h
  obtain ⟨⟨h1, h2⟩, h3⟩ := h
  simp [initFloatConstants, h1, h2, h3]

theorem Target.floatTail_ne_assert0 {real_t : Type} (host : HostLimits real_t)
    (t : Target real_t) : Target.floatTail host t ≠ Except.error Fatal.assert0 := by
  unfold Target.floatTail
  have h1 := initFloatConstants_ne_assert0 host.flt t.FloatProperties
  have h2 := initFloatConstants_ne_assert0 host.dbl t.DoubleProperties
  have h3 := initFloatConstants_ne_assert0 host.ldbl t.RealProperties
  cases e1 : initFloatConstants host.flt t.FloatProperties with
  | error x => cases x <;> simp_all [bind, Except.bind]
  | ok a =>
    cases e2 : initFloatConstants host.dbl t.DoubleProperties with
    | error x => cases x <;> simp_all [bind, Except.bind]
    | ok b =>
      cases e3 : initFloatConstants host.ldbl t.RealProperties with
      | error x => cases x <;> simp_all [bind, Except.bind]
      | ok c => simp [bind, Except.bind, pure, Except.pure]

/-- On a host that passes the assertions of `initFloatConstants`, the tail of
`_init` succeeds and leaves every ABI field as it was. -/
theorem Target.floatTail_ok {real_t : Type} (host : HostLimits real_t)
    (hs : host.supported = true) (t : Target real_t) :
    ∃ t', Target.floatTail host t = Except.ok t' ∧ t'.ptrsize = t.ptrsize
      ∧ t'.realsize = t.realsize ∧ t'.realpad = t.realpad
      ∧ t'.realalignsize = t.realalignsize
      ∧ t'.reverseCppOverloads = t.reverseCppOverloads
      ∧ t'.cppExceptions = t.cppExceptions ∧ t'.c_longsize = t.c_longsize
      ∧ t'.c_long_doublesize = t.c_long_doublesize
      ∧ t'.classinfosize = t.classinfosize
      ∧ t'.maxStaticDataSize = t.maxStaticDataSize := by
  simp only [HostLimits.supported, Bool.and_eq_true] at hs
  obtain ⟨⟨h1, h2⟩, h3⟩ := hs
  obtain ⟨a, ha⟩ := initFloatConstants_ok host.flt t.FloatProperties h1
  obtain ⟨b, hb⟩ := initFloatConstants_ok host.dbl t.DoubleProperties h2
  obtain ⟨c, hc⟩ := initFloatConstants_ok host.ldbl t.RealProperties h3
  refine ⟨{ t with FloatProperties := a, DoubleProperties := b, RealProperties := c }, ?_,
    rfl, rfl, rfl, rfl, rfl, rfl, rfl, rfl, rfl, rfl⟩
  simp [Target.floatTail, ha, hb, hc, bind, Except.bind, pure, Except.pure]

/-- With some family flag set, `_init` gets past its `assert(0)` and reaches the
`initFloatConstants` calls with `ptrsize` set from `isLP64`. -/
theorem Target.init_reaches_tail {real_t : Type} (host : HostLimits real_t)
    (params : Param) (t : Target real_t) (h : params.hasFamily = true) :
    ∃ t0, Target._init host params t = Target.floatTail host t0
      ∧ t0.ptrsize = (if params.isLP64 = true then 8 else 4) := by
  obtain ⟨w, l, o, f, ob, d, s, b64, lp⟩ := params
  cases w <;> cases l <;> cases o <;> cases f <;> cases ob <;> cases d <;> cases s <;>
    first
    | exact Bool.noConfusion h
    | (cases b64 <;> cases lp <;> exact ⟨_, rfl, rfl⟩)

/-- With no family flag set, `_init` stops at its `assert(0)`. -/
theorem Target.init_no_family {real_t : Type} (host : HostLimits real_t)
    (params : Param) (t : Target real_t) (h : params.hasFamily = false) :
    Target._init host params t = Except.error Fatal.assert0 := by
  obtain ⟨w, l, o, f, ob, d, s, b64, lp⟩ := params
  simp only [Param.hasFamily, Bool.or_eq_false_iff] at h
  obtain ⟨⟨⟨⟨⟨⟨h1, h2⟩, h3⟩, h4⟩, h5⟩, h6⟩, h7⟩ := h
  subst h1 h2 h3 h4 h5 h6 h7
  cases lp <;> rfl

/-! ## Theorems about `Target::_init` -/

/-- C1: `Target::_init` reaches its `assert(0)` if and only if no operating
system family flag is set; with a family flag set (in particular for each of the
seven families and every `is64bit`, `isLP64`) it completes, on a host whose
floating types pass the assertions of `initFloatConstants`, and leaves `ptrsize`
equal to 4 or 8. -/
theorem Target.init_assert0_iff {real_t : Type} (host : HostLimits real_t)
    (params : Param) (t : Target real_t) :
    (Target._init host params t = Except.error Fatal.assert0
        ↔ params.hasFamily = false)
      ∧ (params.hasFamily = true → host.supported = true →
          ∃ t', Target._init host params t = Except.ok t'
            ∧ (t'.ptrsize = 4 ∨ t'.ptrsize = 8))
      ∧ ∀ os is64bit isLP64, (Param.ofOS os is64bit isLP64).hasFamily = true := by
  refine ⟨⟨fun h => ?_, Target.init_no_family host params t⟩, fun hf hs => ?_, ?_⟩
  · cases hf : params.hasFamily with
    | false => rfl
    | true =>
      obtain ⟨t0, h0, _⟩ := Target.init_reaches_tail host params t hf
      rw [h0] at h
      exact absurd h (Target.floatTail_ne_assert0 host t0)
  · obtain ⟨t0, h0, hp⟩ := Target.init_reaches_tail host params t hf
    obtain ⟨t', h1, h2, _⟩ := Target.floatTail_ok host hs t0
    refine ⟨t', h0.trans h1, ?_⟩
    rw [h2, hp]
    cases params.isLP64 <;> simp
  · intro os is64bit isLP64
    cases os <;> rfl

/-- C1 at a concrete input: Linux, 64-bit, LP64, from the zeroed state. -/
theorem Target.init_assert0_iff_witness :
    (Param.ofOS OS.Linux true true).hasFamily = true ∧ sampleHost.supported = true
      ∧ ∃ t', Target._init sampleHost (Param.ofOS OS.Linux true true) sampleTarget
            = Except.ok t' ∧ (t'.ptrsize = 4 ∨ t'.ptrsize = 8) :=
  ⟨by decide, by decide,
    (Target.init_assert0_iff sampleHost (Param.ofOS OS.Linux true true) sampleTarget).2.1
      (by decide) (by decide)⟩

/-- C5: extended float layout table. On a supported configuration (and a host
that passes the assertions of `initFloatConstants`) `_init` completes and
`(realsize, realpad, realalignsize)` is `(10, 0, 2)` on Windows,
`(16, 6, 16)` on macOS and on 64-bit Linux, FreeBSD and Solaris, and
`(12, 2, 4)` otherwise; `isLP64` plays no part. -/
theorem Target.init_real_layout {real_t : Type} (host : HostLimits real_t)
    (hs : host.supported = true) (os : OS) (is64bit isLP64 : Bool)
    (t : Target real_t) :
    ∃ t', Target._init host (Param.ofOS os is64bit isLP64) t = Except.ok t'
      ∧ (t'.realsize, t'.realpad, t'.realalignsize) =
          (match os, is64bit with
            | OS.Windows, _ => (10, 0, 2)
            | OS.OSX, _ => (16, 6, 16)
            | OS.Linux, true => (16, 6, 16)
            | OS.FreeBSD, true => (16, 6, 16)
            | OS.Solaris, true => (16, 6, 16)
            | OS.Linux, false => (12, 2, 4)
            | OS.FreeBSD, false => (12, 2, 4)
            | OS.Solaris, false => (12, 2, 4)
            | OS.OpenBSD, _ => (12, 2, 4)
            | OS.DragonFlyBSD, _ => (12, 2, 4)) := by
  have key : ∃ t0, Target._init host (Param.ofOS os is64bit isLP64) t
        = Target.floatTail host t0
      ∧ (t0.realsize, t0.realpad, t0.realalignsize) =
          (match os, is64bit with
            | OS.Windows, _ => (10, 0, 2)
            | OS.OSX, _ => (16, 6, 16)
            | OS.Linux, true => (16, 6, 16)
            | OS.FreeBSD, true => (16, 6, 16)
            | OS.Solaris, true => (16, 6, 16)
            | OS.Linux, false => (12, 2, 4)
            | OS.FreeBSD, false => (12, 2, 4)
            | OS.Solaris, false => (12, 2, 4)
            | OS.OpenBSD, _ => (12, 2, 4)
            | OS.DragonFlyBSD, _ => (12, 2, 4)) := by
    cases os <;> cases is64bit <;> cases isLP64 <;> exact ⟨_, rfl, rfl⟩
  obtain ⟨t0, h0, hv⟩ := key
  obtain ⟨t', h1, _, h3, h4, h5, _⟩ := Target.floatTail_ok host hs t0
  exact ⟨t', h0.trans h1, by rw [h3, h4, h5]; exact hv⟩

/-- C5 at a concrete input: Linux, `is64bit`, `isLP64` gives `(16, 6, 16)`. -/
theorem Target.init_real_layout_witness :
    sampleHost.supported = true
      ∧ ∃ t', Target._init sampleHost (Param.ofOS OS.Linux true true) sampleTarget
            = Except.ok t'
          ∧ (t'.realsize, t'.realpad, t'.realalignsize) = (16, 6, 16) :=
  ⟨by decide, Target.init_real_layout sampleHost (by decide) OS.Linux true true sampleTarget⟩

/-- C6: C `long` size table. On a supported configuration (and a host that
passes the assertions of `initFloatConstants`) `_init` completes and
`c_longsize` is 8 when `is64bit` is set and the family is Linux, FreeBSD,
Solaris or macOS, and 4 in every other case; `isLP64` plays no part. -/
theorem Target.init_c_longsize {real_t : Type} (host : HostLimits real_t)
    (hs : host.supported = true) (os : OS) (is64bit isLP64 : Bool)
    (t : Target real_t) :
    ∃ t', Target._init host (Param.ofOS os is64bit isLP64) t = Except.ok t'
      ∧ t'.c_longsize =
          (if is64bit = true ∧ (os = OS.Linux ∨ os = OS.FreeBSD ∨ os = OS.Solaris
              ∨ os = OS.OSX) then 8 else 4) := by
  have key : ∃ t0, Target._init host (Param.ofOS os is64bit isLP64) t
        = Target.floatTail host t0
      ∧ t0.c_longsize =
          (if is64bit = true ∧ (os = OS.Linux ∨ os = OS.FreeBSD ∨ os = OS.Solaris
              ∨ os = OS.OSX) then 8 else 4) := by
    cases os <;> cases is64bit <;> cases isLP64 <;> exact ⟨_, rfl, rfl⟩
  obtain ⟨t0, h0, hv⟩ := key
  obtain ⟨t', h1, _, _, _, _, _, _, h8, _⟩ := Target.floatTail_ok host hs t0
  exact ⟨t', h0.trans h1, by rw [h8]; exact hv⟩

/-- C6 at concrete inputs: 64-bit macOS has an 8 byte `long`. -/
theorem Target.init_c_longsize_witness :
    sampleHost.supported = true
      ∧ ∃ t', Target._init sampleHost (Param.ofOS OS.OSX true false) sampleTarget
            = Except.ok t' ∧ t'.c_longsize = 8 :=
  ⟨by decide, Target.init_c_longsize sampleHost (by decide) OS.OSX true false sampleTarget⟩

/-- C7: pointer and class metadata size. On a supported configuration (and a
host that passes the assertions of `initFloatConstants`) `_init` completes with `ptrsize = 8` and `classinfosize = 152` when `isLP64` is set and
with `ptrsize = 4` and `classinfosize = 76` when it is not, whatever the family
and `is64bit`. -/
theorem Target.init_ptrsize_classinfosize {real_t : Type} (host : HostLimits real_t)
    (hs : host.supported = true) (os : OS) (is64bit isLP64 : Bool)
    (t : Target real_t) :
    ∃ t', Target._init host (Param.ofOS os is64bit isLP64) t = Except.ok t'
      ∧ t'.ptrsize = (if isLP64 = true then 8 else 4)
      ∧ t'.classinfosize = (if isLP64 = true then 152 else 76) := by
  have key : ∃ t0, Target._init host (Param.ofOS os is64bit isLP64) t
        = Target.floatTail host t0
      ∧ t0.ptrsize = (if isLP64 = true then 8 else 4)
      ∧ t0.classinfosize = (if isLP64 = true then 152 else 76) := by
    cases os <;> cases is64bit <;> cases isLP64 <;> exact ⟨_, rfl, rfl, rfl⟩
  obtain ⟨t0, h0, hv, hc⟩ := key
  obtain ⟨t', h1, h2, _, _, _, _, _, _, _, h10, _⟩ := Target.floatTail_ok host hs t0
  exact ⟨t', h0.trans h1, by rw [h2]; exact hv, by rw [h10]; exact hc⟩

/-- C7 at a concrete input: 32-bit FreeBSD with `isLP64` set. -/
theorem Target.init_ptrsize_classinfosize_witness :
    sampleHost.supported = true
      ∧ ∃ t', Target._init sampleHost (Param.ofOS OS.FreeBSD false true) sampleTarget
            = Except.ok t' ∧ t'.ptrsize = 8 ∧ t'.classinfosize = 152 :=
  ⟨by decide,
    Target.init_ptrsize_classinfosize sampleHost (by decide) OS.FreeBSD false true
      sampleTarget⟩

/-- C8, as stated, fails: on Windows with `is64bit` unset and `isLP64` set,
`_init` leaves `ptrsize = 8` and `maxStaticDataSize = 0x7FFFFFFF`, not 4 and
`0x1000000`. -/
theorem Target.init_windows32_lp64 :
    ∃ t', Target._init sampleHost (Param.ofOS OS.Windows false true) sampleTarget
        = Except.ok t'
      ∧ t'.ptrsize = 8 ∧ t'.ptrsize ≠ 4
      ∧ t'.maxStaticDataSize = 0x7FFFFFFF ∧ t'.maxStaticDataSize ≠ 0x1000000 :=
  ⟨_, rfl, rfl, by decide, rfl, by decide⟩

/-- C8, amended: on Windows with `is64bit` unset (and a host that passes the
assertions of `initFloatConstants`) `_init` completes with the extended float layout `(10, 0, 2)` and `reverseCppOverloads = true` for every
`isLP64`; `ptrsize = 4` and `maxStaticDataSize = 0x1000000` hold when `isLP64`
is unset, and with `isLP64` set they are 8 and `0x7FFFFFFF`. -/
theorem Target.init_windows32 {real_t : Type} (host : HostLimits real_t)
    (hs : host.supported = true) (isLP64 : Bool) (t : Target real_t) :
    ∃ t', Target._init host (Param.ofOS OS.Windows false isLP64) t = Except.ok t'
      ∧ (t'.realsize, t'.realpad, t'.realalignsize) = (10, 0, 2)
      ∧ t'.reverseCppOverloads = true
      ∧ t'.ptrsize = (if isLP64 = true then 8 else 4)
      ∧ t'.maxStaticDataSize = (if isLP64 = true then 0x7FFFFFFF else 0x1000000) := by
  have key : ∃ t0, Target._init host (Param.ofOS OS.Windows false isLP64) t
        = Target.floatTail host t0
      ∧ (t0.realsize, t0.realpad, t0.realalignsize) = (10, 0, 2)
      ∧ t0.reverseCppOverloads = true
      ∧ t0.ptrsize = (if isLP64 = true then 8 else 4)
      ∧ t0.maxStaticDataSize = (if isLP64 = true then 0x7FFFFFFF else 0x1000000) := by
    cases isLP64 <;> exact ⟨_, rfl, rfl, rfl, rfl, rfl⟩
  obtain ⟨t0, h0, ha, hb, hc, hd⟩ := key
  obtain ⟨t', h1, h2, h3, h4, h5, h6, _, _, _, _, h11⟩ := Target.floatTail_ok host hs t0
  exact ⟨t', h0.trans h1, by rw [h3, h4, h5]; exact ha, by rw [h6]; exact hb,
    by rw [h2]; exact hc, by rw [h11]; exact hd⟩

/-- C8, amended, at a concrete input: Windows, 32 bit, `isLP64` unset. -/
theorem Target.init_windows32_witness :
    sampleHost.supported = true
      ∧ ∃ t', Target._init sampleHost (Param.ofOS OS.Windows false false) sampleTarget
            = Except.ok t'
          ∧ (t'.realsize, t'.realpad, t'.realalignsize) = (10, 0, 2)
          ∧ t'.reverseCppOverloads = true
          ∧ t'.ptrsize = 4
          ∧ t'.maxStaticDataSize = 0x1000000 :=
  ⟨by decide, Target.init_windows32 sampleHost (by decide) false sampleTarget⟩

/-- C9: static data cap. On a supported configuration (and a host that passes
the assertions of `initFloatConstants`) `_init` completes and
`maxStaticDataSize` is `0x1000000` exactly when the family is Windows and the
resulting `ptrsize` is 4, and `0x7FFFFFFF` otherwise; so it never exceeds the
largest positive 32-bit signed value, also when `ptrsize` is 8. -/
theorem Target.init_maxStaticDataSize {real_t : Type} (host : HostLimits real_t)
    (hs : host.supported = true) (os : OS) (is64bit isLP64 : Bool)
    (t : Target real_t) :
    ∃ t', Target._init host (Param.ofOS os is64bit isLP64) t = Except.ok t'
      ∧ t'.maxStaticDataSize =
          (if os = OS.Windows ∧ t'.ptrsize = 4 then 0x1000000 else 0x7FFFFFFF)
      ∧ (t'.maxStaticDataSize = 0x1000000 ↔ os = OS.Windows ∧ t'.ptrsize = 4)
      ∧ t'.maxStaticDataSize ≤ 2 ^ 31 - 1 := by
  have key : ∃ t0, Target._init host (Param.ofOS os is64bit isLP64) t
        = Target.floatTail host t0
      ∧ t0.ptrsize = (if isLP64 = true then 8 else 4)
      ∧ t0.maxStaticDataSize =
          (if os = OS.Windows ∧ isLP64 = false then 0x1000000 else 0x7FFFFFFF) := by
    cases os <;> cases is64bit <;> cases isLP64 <;> exact ⟨_, rfl, rfl, rfl⟩
  obtain ⟨t0, h0, ha, hb⟩ := key
  obtain ⟨t', h1, h2, _, _, _, _, _, _, _, _, h11⟩ := Target.floatTail_ok host hs t0
  rw [← h11] at hb
  rw [← h2] at ha
  refine ⟨t', h0.trans h1, ?_, ?_, ?_⟩ <;> rw [hb] <;>
    cases os <;> cases isLP64 <;> simp [ha]

/-- C9 at a concrete input: 64-bit Linux with `isLP64` keeps the cap
`0x7FFFFFFF`. -/
theorem Target.init_maxStaticDataSize_witness :
    sampleHost.supported = true
      ∧ ∃ t', Target._init sampleHost (Param.ofOS OS.Linux true true) sampleTarget
            = Except.ok t'
          ∧ t'.maxStaticDataSize =
              (if OS.Linux = OS.Windows ∧ t'.ptrsize = 4 then 0x1000000 else 0x7FFFFFFF)
          ∧ (t'.maxStaticDataSize = 0x1000000 ↔ OS.Linux = OS.Windows ∧ t'.ptrsize = 4)
          ∧ t'.maxStaticDataSize ≤ 2 ^ 31 - 1 :=
  ⟨by decide,
    Target.init_maxStaticDataSize sampleHost (by decide) OS.Linux true true sampleTarget⟩

/-- C10: C `long double` size. On a supported configuration (and a host that
passes the assertions of `initFloatConstants`) `_init` completes and
`c_long_doublesize` equals `realsize`, except on Windows with `is64bit` set,
where it is 8 while `realsize` is 10. -/
theorem Target.init_c_long_doublesize {real_t : Type} (host : HostLimits real_t)
    (hs : host.supported = true) (os : OS) (is64bit isLP64 : Bool)
    (t : Target real_t) :
    ∃ t', Target._init host (Param.ofOS os is64bit isLP64) t = Except.ok t'
      ∧ (if os = OS.Windows ∧ is64bit = true
          then t'.c_long_doublesize = 8 ∧ t'.realsize = 10
          else t'.c_long_doublesize = t'.realsize) := by
  have key : ∃ t0, Target._init host (Param.ofOS os is64bit isLP64) t
        = Target.floatTail host t0
      ∧ (if os = OS.Windows ∧ is64bit = true
          then t0.c_long_doublesize = 8 ∧ t0.realsize = 10
          else t0.c_long_doublesize = t0.realsize) := by
    cases os <;> cases is64bit <;> cases isLP64 <;>
      first
      | exact ⟨_, rfl, rfl⟩
      | exact ⟨_, rfl, rfl, rfl⟩
  obtain ⟨t0, h0, hv⟩ := key
  obtain ⟨t', h1, _, h3, _, _, _, _, _, h9, _⟩ := Target.floatTail_ok host hs t0
  exact ⟨t', h0.trans h1, by rw [h3, h9]; exact hv⟩

/-- C10 at a concrete input: 64-bit Windows. -/
theorem Target.init_c_long_doublesize_witness :
    sampleHost.supported = true
      ∧ ∃ t', Target._init sampleHost (Param.ofOS OS.Windows true true) sampleTarget
            = Except.ok t' ∧ t'.c_long_doublesize = 8 ∧ t'.realsize = 10 :=
  ⟨by decide,
    Target.init_c_long_doublesize sampleHost (by decide) OS.Windows true true sampleTarget⟩

/-! ## Auxiliary facts about the byte buffer -/

theorem or_mul_eq_add (x b k : Nat) (hx : x < 2 ^ k) :
    x ||| b * 2 ^ k = x + b * 2 ^ k := by
  rw [Nat.or_comm, Nat.mul_comm b, ← Nat.mul_add_lt_is_or hx, Nat.add_comm]

theorem bytes4_sum (v : Nat) :
    (v % 256) + (v / 2 ^ 8 % 256) * 2 ^ 8 + (v / 2 ^ 16 % 256) * 2 ^ 16
      + (v / 2 ^ 24 % 256) * 2 ^ 24 = v % 2 ^ 32 := by
  norm_num
  omega

theorem bytes8_sum (v : Nat) :
    (v % 256) + (v / 2 ^ 8 % 256) * 2 ^ 8 + (v / 2 ^ 16 % 256) * 2 ^ 16
      + (v / 2 ^ 24 % 256) * 2 ^ 24 + (v / 2 ^ 32 % 256) * 2 ^ 32
      + (v / 2 ^ 40 % 256) * 2 ^ 40 + (v / 2 ^ 48 % 256) * 2 ^ 48
      + (v / 2 ^ 56 % 256) * 2 ^ 56 = v % 2 ^ 64 := by
  norm_num
  omega

/-- The buffer after `encodeInteger` of a 4 byte operand. -/
theorem encodeInteger_four {real_t : Type} (e : Expression real_t)
    (h : e.type.size = 4) :
    encodeInteger e (List.replicate 64 0) =
      [e.toInteger % 2 ^ 64 % 256, e.toInteger % 2 ^ 64 / 2 ^ 8 % 256,
        e.toInteger % 2 ^ 64 / 2 ^ 16 % 256, e.toInteger % 2 ^ 64 / 2 ^ 24 % 256]
        ++ List.replicate 60 0 := by
  have h255 : ∀ n : Nat, n &&& 255 = n % 256 :=
    fun n => Nat.and_pow_two_sub_one_eq_mod n 8
  simp [encodeInteger, h, toCInt, List.range_succ, List.replicate, h255,
    Nat.shiftRight_eq_div_pow]

/-- The buffer after `encodeInteger` of an 8 byte operand. -/
theorem encodeInteger_eight {real_t : Type} (e : Expression real_t)
    (h : e.type.size = 8) :
    encodeInteger e (List.replicate 64 0) =
      [e.toInteger % 2 ^ 64 % 256, e.toInteger % 2 ^ 64 / 2 ^ 8 % 256,
        e.toInteger % 2 ^ 64 / 2 ^ 16 % 256, e.toInteger % 2 ^ 64 / 2 ^ 24 % 256,
        e.toInteger % 2 ^ 64 / 2 ^ 32 % 256, e.toInteger % 2 ^ 64 / 2 ^ 40 % 256,
        e.toInteger % 2 ^ 64 / 2 ^ 48 % 256, e.toInteger % 2 ^ 64 / 2 ^ 56 % 256]
        ++ List.replicate 56 0 := by
  have h255 : ∀ n : Nat, n &&& 255 = n % 256 :=
    fun n => Nat.and_pow_two_sub_one_eq_mod n 8
  simp [encodeInteger, h, toCInt, List.range_succ, List.replicate, h255,
    Nat.shiftRight_eq_div_pow]

theorem storeObject_four (obj : Nat) :
    storeObject 4 obj (List.replicate 64 0) =
      [obj % 256, obj / 2 ^ 8 % 256, obj / 2 ^ 16 % 256, obj / 2 ^ 24 % 256]
        ++ List.replicate 60 0 := by
  simp [storeObject, List.range_succ, List.replicate, Nat.shiftRight_eq_div_pow]

/-- `decodeInteger` of a 4 byte type reads the first four bytes, least
significant first. -/
theorem decodeInteger_four {real_t : Type} (loc : Loc) (type : Type_)
    (h : type.size = 4) (b0 b1 b2 b3 : Nat) (rest : List Nat)
    (h0 : b0 < 256) (h1 : b1 < 256) (h2 : b2 < 256) (h3 : b3 < 256) :
    (decodeInteger loc type (b0 :: b1 :: b2 :: b3 :: rest) : NewExpression real_t)
      = NewExpression.IntegerExp loc
          (b0 + b1 * 2 ^ 8 + b2 * 2 ^ 16 + b3 * 2 ^ 24) type := by
  simp only [decodeInteger, h, toCInt]
  congr 1
  simp [List.range_succ, Nat.shiftLeft_eq]
  rw [Nat.mod_eq_of_lt (show b0 < 18446744073709551616 by omega),
    Nat.mod_eq_of_lt (show b1 * 256 < 18446744073709551616 by omega),
    Nat.mod_eq_of_lt (show b2 * 65536 < 18446744073709551616 by omega),
    Nat.mod_eq_of_lt (show b3 * 16777216 < 18446744073709551616 by omega)]
  have k1 := or_mul_eq_add b0 b1 8 (by omega)
  have k2 := or_mul_eq_add (b0 + b1 * 2 ^ 8) b2 16 (by omega)
  have k3 := or_mul_eq_add (b0 + b1 * 2 ^ 8 + b2 * 2 ^ 16) b3 24 (by omega)
  norm_num at k1 k2 k3
  rw [k1, k2, k3]

/-! ## Auxiliary facts about `Target::paintAsType` -/

theorem Target.paintAsType_sizeMismatch {real_t : Type} (host : HostFloat real_t)
    (e : Expression real_t) (type : Type_) (h : e.type.size ≠ type.size) :
    Target.paintAsType host e type = Except.error Fatal.sizeMismatch := by
  simp [Target.paintAsType, h, throw, throwThe, MonadExceptOf.throw, bind, Except.bind]

theorem Target.paintAsType_source_tag {real_t : Type} (host : HostFloat real_t)
    (e : Expression real_t) (type : Type_) (h : e.type.size = type.size)
    (hs : e.type.ty.paintable = false) :
    Target.paintAsType host e type = Except.error Fatal.assert0 := by
  obtain ⟨loc, ⟨ty, os⟩, v, r⟩ := e
  cases ty <;> simp [TY.paintable] at hs <;>
    simp [Target.paintAsType, h, throw, throwThe, MonadExceptOf.throw, bind,
      Except.bind, pure, Except.pure]

theorem Target.paintAsType_target_tag {real_t : Type} (host : HostFloat real_t)
    (e : Expression real_t) (type : Type_) (h : e.type.size = type.size)
    (hs : e.type.ty.paintable = true) (hd : type.ty.paintable = false) :
    Target.paintAsType host e type = Except.error Fatal.assert0 := by
  obtain ⟨loc, ⟨ty, os⟩, v, r⟩ := e
  obtain ⟨ty2, os2⟩ := type
  cases ty <;> simp [TY.paintable] at hs <;> cases ty2 <;>
    simp [TY.paintable] at hd <;>
    simp [Target.paintAsType, h, throw, throwThe, MonadExceptOf.throw, bind,
      Except.bind, pure, Except.pure, encodeReal]

theorem Target.paintAsType_returns {real_t : Type} (host : HostFloat real_t)
    (e : Expression real_t) (type : Type_) (h : e.type.size = type.size)
    (hs : e.type.ty.paintable = true) (hd : type.ty.paintable = true) :
    ∃ r, Target.paintAsType host e type = Except.ok r ∧ r.type = type := by
  obtain ⟨loc, ⟨ty, os⟩, v, r⟩ := e
  obtain ⟨ty2, os2⟩ := type
  cases ty <;> simp [TY.paintable] at hs <;> cases ty2 <;>
    simp [TY.paintable] at hd <;>
    simp [Type_.size] at h <;>
    simp [Target.paintAsType, Type_.size, throw, throwThe, MonadExceptOf.throw, bind,
      Except.bind, pure, Except.pure, encodeReal, decodeReal, decodeInteger,
      NewExpression.type]

/-- Painting a `float32` operand as a 32-bit integer: the result carries the
object representation of `(float)e->toReal()`. -/
theorem Target.paintAsType_float32_int32 {real_t : Type} (host : HostFloat real_t)
    (loc : Loc) (toInteger : Nat) (toReal : real_t) (s1 s2 : Nat) :
    Target.paintAsType host ⟨loc, ⟨TY.Tfloat32, s1⟩, toInteger, toReal⟩ ⟨TY.Tint32, s2⟩
      = Except.ok (NewExpression.IntegerExp loc (host.to_float toReal % 2 ^ 32)
          ⟨TY.Tint32, s2⟩) := by
  have hd := @decodeInteger_four real_t loc ⟨TY.Tint32, s2⟩ rfl
    (host.to_float toReal % 256) (host.to_float toReal / 2 ^ 8 % 256)
    (host.to_float toReal / 2 ^ 16 % 256) (host.to_float toReal / 2 ^ 24 % 256)
    (List.replicate 60 0) (Nat.mod_lt _ (by decide)) (Nat.mod_lt _ (by decide))
    (Nat.mod_lt _ (by decide)) (Nat.mod_lt _ (by decide))
  rw [bytes4_sum] at hd
  simp only [Target.paintAsType, Type_.size, encodeReal, bind, Except.bind, pure,
    Except.pure, storeObject_four]
  simpa using hd

/-! ## Theorems about `Target::paintAsType` -/

/-- C3: `Target::paintAsType` is fatal exactly when its precondition fails. It
stops at an assertion if and only if the source and target types differ in byte
size or one of their tags is outside `int32`, `uns32`, `int64`, `uns64`,
`float32`, `float64`; in every other case, and only then, it returns a constant
whose type is the target type. An `assert(0)` (those of `encodeReal` and
`decodeReal` included) is reached only with equal sizes and a tag outside the
six. -/
theorem Target.paintAsType_fatal_iff {real_t : Type} (host : HostFloat real_t)
    (e : Expression real_t) (type : Type_) :
    ((∃ f, Target.paintAsType host e type = Except.error f) ↔
        (e.type.size ≠ type.size ∨ e.type.ty.paintable = false
          ∨ type.ty.paintable = false))
      ∧ ((∃ r, Target.paintAsType host e type = Except.ok r ∧ r.type = type) ↔
        (e.type.size = type.size ∧ e.type.ty.paintable = true
          ∧ type.ty.paintable = true))
      ∧ (Target.paintAsType host e type = Except.error Fatal.assert0 ↔
        (e.type.size = type.size
          ∧ (e.type.ty.paintable = false ∨ type.ty.paintable = false)))
      ∧ (Target.paintAsType host e type = Except.error Fatal.sizeMismatch ↔
        e.type.size ≠ type.size) := by
  by_cases hsz : e.type.size = type.size
  · cases hs : e.type.ty.paintable with
    | false =>
      have h := Target.paintAsType_source_tag host e type hsz hs
      simp [h, hsz]
    | true =>
      cases hd : type.ty.paintable with
      | false =>
        have h := Target.paintAsType_target_tag host e type hsz hs hd
        simp [h, hsz]
      | true =>
        obtain ⟨r, h, hr⟩ := Target.paintAsType_returns host e type hsz hs hd
        simp [h, hsz, hr]
  · have h := Target.paintAsType_sizeMismatch host e type hsz
    simp [h, hsz]

/-- C11: C++ exception interop flag. On a supported configuration (and a host
that passes the assertions of `initFloatConstants`) `_init` completes and
`cppExceptions` is true if and only if the family is Linux, FreeBSD or macOS,
whatever `is64bit` and `isLP64` are. -/
theorem Target.init_cppExceptions {real_t : Type} (host : HostLimits real_t)
    (hs : host.supported = true) (os : OS) (is64bit isLP64 : Bool)
    (t : Target real_t) :
    ∃ t', Target._init host (Param.ofOS os is64bit isLP64) t = Except.ok t'
      ∧ (t'.cppExceptions = true ↔ os = OS.Linux ∨ os = OS.FreeBSD ∨ os = OS.OSX) := by
  have key : ∃ t0, Target._init host (Param.ofOS os is64bit isLP64) t
        = Target.floatTail host t0
      ∧ t0.cppExceptions
          = decide (os = OS.Linux ∨ os = OS.FreeBSD ∨ os = OS.OSX) := by
    cases os <;> cases is64bit <;> cases isLP64 <;> exact ⟨_, rfl, rfl⟩
  obtain ⟨t0, h0, hv⟩ := key
  obtain ⟨t', h1, _, _, _, _, _, h7, _⟩ := Target.floatTail_ok host hs t0
  refine ⟨t', h0.trans h1, ?_⟩
  rw [h7, hv]
  simp

/-- C11 at a concrete input: 32-bit FreeBSD has the flag set. -/
theorem Target.init_cppExceptions_witness :
    sampleHost.supported = true
      ∧ ∃ t', Target._init sampleHost (Param.ofOS OS.FreeBSD false false) sampleTarget
            = Except.ok t'
          ∧ (t'.cppExceptions = true
              ↔ OS.FreeBSD = OS.Linux ∨ OS.FreeBSD = OS.FreeBSD ∨ OS.FreeBSD = OS.OSX) :=
  ⟨by decide,
    Target.init_cppExceptions sampleHost (by decide) OS.FreeBSD false false sampleTarget⟩

/-- C20: extended float layout invariant. On a supported configuration (and a
host that passes the assertions of `initFloatConstants`) `_init` completes with
a payload `realsize - realpad` of 10 bytes, a `realalignsize` that is a power of
two, and a `realsize` that is a positive multiple of `realalignsize`. -/
theorem Target.init_real_layout_invariant {real_t : Type} (host : HostLimits real_t)
    (hs : host.supported = true) (os : OS) (is64bit isLP64 : Bool)
    (t : Target real_t) :
    ∃ t', Target._init host (Param.ofOS os is64bit isLP64) t = Except.ok t'
      ∧ t'.realsize - t'.realpad = 10
      ∧ (∃ k : Nat, t'.realalignsize = 2 ^ k)
      ∧ 0 < t'.realsize
      ∧ t'.realsize % t'.realalignsize = 0 := by
  have key : ∃ t0, Target._init host (Param.ofOS os is64bit isLP64) t
        = Target.floatTail host t0
      ∧ (t0.realsize, t0.realpad, t0.realalignsize) =
          (match os, is64bit with
            | OS.Windows, _ => (10, 0, 2)
            | OS.OSX, _ => (16, 6, 16)
            | OS.Linux, true => (16, 6, 16)
            | OS.FreeBSD, true => (16, 6, 16)
            | OS.Solaris, true => (16, 6, 16)
            | OS.Linux, false => (12, 2, 4)
            | OS.FreeBSD, false => (12, 2, 4)
            | OS.Solaris, false => (12, 2, 4)
            | OS.OpenBSD, _ => (12, 2, 4)
            | OS.DragonFlyBSD, _ => (12, 2, 4)) := by
    cases os <;> cases is64bit <;> cases isLP64 <;> exact ⟨_, rfl, rfl⟩
  obtain ⟨t0, h0, hv⟩ := key
  obtain ⟨t', h1, _, h3, h4, h5, _⟩ := Target.floatTail_ok host hs t0
  rw [← h3, ← h4, ← h5] at hv
  refine ⟨t', h0.trans h1, ?_⟩
  have hl : (t'.realsize = 10 ∧ t'.realpad = 0 ∧ t'.realalignsize = 2)
      ∨ (t'.realsize = 16 ∧ t'.realpad = 6 ∧ t'.realalignsize = 16)
      ∨ (t'.realsize = 12 ∧ t'.realpad = 2 ∧ t'.realalignsize = 4) := by
    cases os <;> cases is64bit <;> simp only [Prod.mk.injEq] at hv <;> simp [hv]
  rcases hl with ⟨ha, hb, hc⟩ | ⟨ha, hb, hc⟩ | ⟨ha, hb, hc⟩ <;> rw [ha, hb, hc]
  · exact ⟨by norm_num, ⟨1, by norm_num⟩, by norm_num, by norm_num⟩
  · exact ⟨by norm_num, ⟨4, by norm_num⟩, by norm_num, by norm_num⟩
  · exact ⟨by norm_num, ⟨2, by norm_num⟩, by norm_num, by norm_num⟩

/-- C20 at a concrete input: 32-bit OpenBSD, layout `(12, 2, 4)`. -/
theorem Target.init_real_layout_invariant_witness :
    sampleHost.supported = true
      ∧ ∃ t', Target._init sampleHost (Param.ofOS OS.OpenBSD false false) sampleTarget
            = Except.ok t'
          ∧ t'.realsize - t'.realpad = 10
          ∧ (∃ k : Nat, t'.realalignsize = 2 ^ k)
          ∧ 0 < t'.realsize
          ∧ t'.realsize % t'.realalignsize = 0 :=
  ⟨by decide,
    Target.init_real_layout_invariant sampleHost (by decide) OS.OpenBSD false false
      sampleTarget⟩

/-! ## Theorems about the table functions -/

/-- C12: critical section size table. For each of the seven families and every
`is64bit`, `isLP64`, `critsecsize` returns: Windows 40 if `isLP64` else 24;
Linux 40 if `isLP64`, else 32 if `is64bit`, else 24; FreeBSD, OpenBSD and
DragonFlyBSD 8 if `isLP64` else 4; macOS 64 if `isLP64` else 44; Solaris 24.
It reaches `assert(0)` exactly when no family flag is set. -/
theorem Target.critsecsize_table (os : OS) (is64bit isLP64 : Bool) (params : Param) :
    Target.critsecsize (Param.ofOS os is64bit isLP64) = Except.ok
        (match os with
          | OS.Windows => if isLP64 = true then 40 else 24
          | OS.Linux => if isLP64 = true then 40 else if is64bit = true then 32 else 24
          | OS.FreeBSD => if isLP64 = true then 8 else 4
          | OS.OpenBSD => if isLP64 = true then 8 else 4
          | OS.DragonFlyBSD => if isLP64 = true then 8 else 4
          | OS.OSX => if isLP64 = true then 64 else 44
          | OS.Solaris => 24)
      ∧ (Target.critsecsize params = Except.error Fatal.assert0
          ↔ params.hasFamily = false)
      ∧ Target.critsecsize (Param.ofOS OS.OSX is64bit true) = Except.ok 64
      ∧ Target.critsecsize (Param.ofOS OS.OSX is64bit false) = Except.ok 44 := by
  refine ⟨?_, ?_, ?_, ?_⟩
  · cases os <;> cases is64bit <;> cases isLP64 <;> rfl
  · obtain ⟨w, l, o, f, ob, d, s, b64, lp⟩ := params
    cases w <;> cases l <;> cases o <;> cases f <;> cases ob <;> cases d <;> cases s <;>
      cases b64 <;> simp [Target.critsecsize, Param.hasFamily]
  · cases is64bit <;> rfl
  · cases is64bit <;> rfl

/-- C13: vector type verdict. For every configuration, byte width and element
type, `checkVectorType` returns 1 if neither `is64bit` nor `isOSX` holds;
otherwise 2 if the width is neither 16 nor 32; otherwise 3 if the tag is not
one of the legal element tags; otherwise 0. So the result is one of 0, 1, 2, 3,
is 0 exactly when the three checks pass, and depends only on `is64bit`,
`isOSX`, the width and the tag. -/
theorem Target.checkVectorType_verdict (params : Param) (sz : Int) (type : Type_) :
    Target.checkVectorType params sz type =
        (if params.is64bit = false ∧ params.isOSX = false then 1
          else if sz ≠ 16 ∧ sz ≠ 32 then 2
          else if type.ty.vectorElement = false then 3
          else 0)
      ∧ (Target.checkVectorType params sz type = 0 ∨ Target.checkVectorType params sz type = 1
          ∨ Target.checkVectorType params sz type = 2
          ∨ Target.checkVectorType params sz type = 3)
      ∧ (Target.checkVectorType params sz type = 0 ↔
          ((params.is64bit = true ∨ params.isOSX = true) ∧ (sz = 16 ∨ sz = 32)
            ∧ type.ty.vectorElement = true))
      ∧ Target.checkVectorType { params with is64bit := true } 16 ⟨TY.Tint32, type.otherSize⟩
          = 0
      ∧ Target.checkVectorType { params with is64bit := false, isOSX := false } 16
          ⟨TY.Tint32, type.otherSize⟩ = 1 := by
  have main : Target.checkVectorType params sz type =
        (if params.is64bit = false ∧ params.isOSX = false then 1
          else if sz ≠ 16 ∧ sz ≠ 32 then 2
          else if type.ty.vectorElement = false then 3
          else 0) := by
    obtain ⟨ty, os⟩ := type
    unfold Target.checkVectorType
    cases params.is64bit <;> cases params.isOSX <;>
      by_cases h16 : sz = 16 <;> by_cases h32 : sz = 32 <;>
      cases ty <;> simp [h16, h32, TY.vectorElement]
  refine ⟨main, ?_, ?_, ?_, ?_⟩
  · rw [main]
    split_ifs <;> simp
  · rw [main]
    cases params.is64bit <;> cases params.isOSX <;>
      by_cases h16 : sz = 16 <;> by_cases h32 : sz = 32 <;>
      cases type.ty.vectorElement <;> simp [h16, h32]
  · cases params.isOSX <;> rfl
  · rfl

/-- C14: `va_list` representation. For each of the seven families `va_listType`
returns a pointer to the identifier type `__va_list_tag` exactly when the family
is not Windows and `is64bit` is set, and a pointer to `char` in every other
case. It reaches `assert(0)` exactly when no family flag is set. -/
theorem Target.va_listType_table (os : OS) (is64bit isLP64 : Bool) (params : Param) :
    Target.va_listType (Param.ofOS os is64bit isLP64) = Except.ok
        (if os ≠ OS.Windows ∧ is64bit = true
          then TypeNode.pointerTo (TypeNode.TypeIdentifier Loc.initial "__va_list_tag")
          else TypeNode.pointerTo TypeNode.tchar)
      ∧ (Target.va_listType params = Except.error Fatal.assert0
          ↔ params.hasFamily = false) := by
  refine ⟨?_, ?_⟩
  · cases os <;> cases is64bit <;> cases isLP64 <;> rfl
  · obtain ⟨w, l, o, f, ob, d, s, b64, lp⟩ := params
    cases w <;> cases l <;> cases o <;> cases f <;> cases ob <;> cases d <;> cases s <;>
      cases b64 <;> simp [Target.va_listType, Param.hasFamily]

/-- C18: `prefixName` changes the buffer only for C++ linkage on macOS. With
`linkage` equal to `LINKcpp` and `isOSX` set the buffer becomes the byte `_`
followed by its previous contents; for every other linkage and configuration
it is left unchanged. -/
theorem Target.prefixName_effect (params : Param) (buf : OutBuffer) (linkage : LINK) :
    Target.prefixName params buf linkage =
        (if linkage = LINK.LINKcpp ∧ params.isOSX = true
          then OutBuffer.mk (0x5F :: buf.data) else buf)
      ∧ ('_'.toNat = 0x5F)
      ∧ ∀ os is64bit isLP64,
          Target.prefixName (Param.ofOS os is64bit isLP64) buf linkage =
            (if linkage = LINK.LINKcpp ∧ os = OS.OSX
              then OutBuffer.mk (0x5F :: buf.data) else buf) := by
  refine ⟨?_, rfl, ?_⟩
  · cases linkage <;> cases h : params.isOSX <;>
      simp [Target.prefixName, h, OutBuffer.prependbyte]
  · intro os is64bit isLP64
    cases linkage <;> cases os <;>
      simp [Target.prefixName, Param.ofOS, OutBuffer.prependbyte]

/-! ## Theorems about `Target::alignsize` -/

/-- The rules of `alignsize` on a supported configuration, for a basic type:
the extended types take `realalignsize`; on Linux, FreeBSD, OpenBSD,
DragonFlyBSD, Solaris and macOS `complex32` takes 4 and the five 64 bit types
take 8 or 4 after `is64bit`; everything else takes the size of the type,
converted to `unsigned`. -/
theorem Target.alignsize_rules {real_t : Type} (os : OS) (is64bit isLP64 : Bool)
    (t : Target real_t) (type : Type_) :
    Target.alignsize (Param.ofOS os is64bit isLP64) t type true = Except.ok
      (if type.ty = TY.Tfloat80 ∨ type.ty = TY.Timaginary80 ∨ type.ty = TY.Tcomplex80
        then toUnsigned t.realalignsize
        else if (os.posixLike = true ∨ os = OS.OSX) ∧ type.ty = TY.Tcomplex32 then 4
        else if (os.posixLike = true ∨ os = OS.OSX)
            ∧ (type.ty = TY.Tint64 ∨ type.ty = TY.Tuns64 ∨ type.ty = TY.Tfloat64
              ∨ type.ty = TY.Timaginary64 ∨ type.ty = TY.Tcomplex64)
          then (if is64bit = true then 8 else 4)
        else type.size % 2 ^ 32) := by
  obtain ⟨ty, sz⟩ := type
  cases os <;> cases is64bit <;> cases ty <;>
    simp [Target.alignsize, Param.ofOS, OS.posixLike, Type_.size]

/-- C15: alignment special cases on the POSIX-like families (Linux, FreeBSD,
OpenBSD, DragonFlyBSD, Solaris). For a basic type, `alignsize` returns
`Target::realalignsize` (as an `unsigned`) for `float80`, `imaginary80` and
`complex80` on every family; on a POSIX-like family it returns 4 for `complex32`
and, for `int64`, `uns64`, `float64`, `imaginary64` and `complex64`, 8 when
`is64bit` is set and 4 when it is not. -/
theorem Target.alignsize_posix {real_t : Type} (os : OS) (is64bit isLP64 : Bool)
    (t : Target real_t) (otherSize : Nat) (hp : os.posixLike = true) :
    (∀ family : OS,
        Target.alignsize (Param.ofOS family is64bit isLP64) t ⟨TY.Tfloat80, otherSize⟩ true
            = Except.ok (toUnsigned t.realalignsize)
          ∧ Target.alignsize (Param.ofOS family is64bit isLP64) t
              ⟨TY.Timaginary80, otherSize⟩ true = Except.ok (toUnsigned t.realalignsize)
          ∧ Target.alignsize (Param.ofOS family is64bit isLP64) t
              ⟨TY.Tcomplex80, otherSize⟩ true = Except.ok (toUnsigned t.realalignsize))
      ∧ (0 ≤ t.realalignsize → t.realalignsize < 2 ^ 32 →
          (toUnsigned t.realalignsize : Int) = t.realalignsize)
      ∧ Target.alignsize (Param.ofOS os is64bit isLP64) t ⟨TY.Tcomplex32, otherSize⟩ true
          = Except.ok 4
      ∧ Target.alignsize (Param.ofOS os is64bit isLP64) t ⟨TY.Tint64, otherSize⟩ true
          = Except.ok (if is64bit = true then 8 else 4)
      ∧ Target.alignsize (Param.ofOS os is64bit isLP64) t ⟨TY.Tuns64, otherSize⟩ true
          = Except.ok (if is64bit = true then 8 else 4)
      ∧ Target.alignsize (Param.ofOS os is64bit isLP64) t ⟨TY.Tfloat64, otherSize⟩ true
          = Except.ok (if is64bit = true then 8 else 4)
      ∧ Target.alignsize (Param.ofOS os is64bit isLP64) t ⟨TY.Timaginary64, otherSize⟩ true
          = Except.ok (if is64bit = true then 8 else 4)
      ∧ Target.alignsize (Param.ofOS os is64bit isLP64) t ⟨TY.Tcomplex64, otherSize⟩ true
          = Except.ok (if is64bit = true then 8 else 4) := by
  refine ⟨fun family => ?_, ?_, ?_, ?_, ?_, ?_, ?_, ?_⟩
  · refine ⟨?_, ?_, ?_⟩ <;> rw [Target.alignsize_rules] <;> simp
  · intro h0 h1
    unfold toUnsigned
    rw [Int.emod_eq_of_lt h0 h1]
    exact Int.toNat_of_nonneg h0
  all_goals
    rw [Target.alignsize_rules]
    simp [hp]

/-- C15 at a concrete input: `int64` on 64-bit Linux. -/
theorem Target.alignsize_posix_witness :
    OS.Linux.posixLike = true
      ∧ Target.alignsize (Param.ofOS OS.Linux true true) sampleTarget ⟨TY.Tint64, 0⟩ true
          = Except.ok 8 :=
  ⟨rfl, (Target.alignsize_posix OS.Linux true true sampleTarget 0 rfl).2.2.2.1⟩

/-- C16, as stated, fails on macOS: on 32-bit macOS `alignsize` gives 4 for
`int64`, whose size is 8, and 4 for a `complex32` of size 8. -/
theorem Target.alignsize_osx_not_size :
    Target.alignsize (Param.ofOS OS.OSX false false) sampleTarget ⟨TY.Tint64, 0⟩ true
        = Except.ok 4
      ∧ Type_.size ⟨TY.Tint64, 0⟩ = 8
      ∧ Target.alignsize (Param.ofOS OS.OSX false false) sampleTarget ⟨TY.Tcomplex32, 8⟩ true
        = Except.ok 4
      ∧ Type_.size ⟨TY.Tcomplex32, 8⟩ = 8 :=
  ⟨rfl, rfl, rfl, rfl⟩

/-- C16, amended: alignment fallback. For a basic type on a supported
configuration, outside the three special rules (the extended types; `complex32`
on Linux, FreeBSD, OpenBSD, DragonFlyBSD, Solaris or macOS; the five 64 bit
types on those six families) `alignsize` returns `type->size()` converted to
`unsigned`, which is the size itself below `2 ^ 32`. This covers `complex32`
and the five 64 bit types on Windows for both values of `is64bit`; on macOS
`complex32` gets 4 and each of the five 64 bit types gets 8 when `is64bit` is
set and 4 when it is not. -/
theorem Target.alignsize_fallback {real_t : Type} (os : OS) (is64bit isLP64 : Bool)
    (t : Target real_t) (type : Type_)
    (h80 : type.ty ≠ TY.Tfloat80 ∧ type.ty ≠ TY.Timaginary80 ∧ type.ty ≠ TY.Tcomplex80)
    (hrule : (os.posixLike = true ∨ os = OS.OSX) →
      type.ty ≠ TY.Tcomplex32 ∧ type.ty ≠ TY.Tint64 ∧ type.ty ≠ TY.Tuns64
        ∧ type.ty ≠ TY.Tfloat64 ∧ type.ty ≠ TY.Timaginary64 ∧ type.ty ≠ TY.Tcomplex64) :
    Target.alignsize (Param.ofOS os is64bit isLP64) t type true
        = Except.ok (type.size % 2 ^ 32)
      ∧ (type.size < 2 ^ 32 →
          Target.alignsize (Param.ofOS os is64bit isLP64) t type true
            = Except.ok type.size)
      ∧ (∀ (b64 lp : Bool) (sz : Nat),
          Target.alignsize (Param.ofOS OS.Windows b64 lp) t ⟨TY.Tcomplex32, sz⟩ true
              = Except.ok (Type_.size ⟨TY.Tcomplex32, sz⟩ % 2 ^ 32)
            ∧ Target.alignsize (Param.ofOS OS.Windows b64 lp) t ⟨TY.Tint64, sz⟩ true
              = Except.ok (Type_.size ⟨TY.Tint64, sz⟩ % 2 ^ 32)
            ∧ Target.alignsize (Param.ofOS OS.Windows b64 lp) t ⟨TY.Tuns64, sz⟩ true
              = Except.ok (Type_.size ⟨TY.Tuns64, sz⟩ % 2 ^ 32)
            ∧ Target.alignsize (Param.ofOS OS.Windows b64 lp) t ⟨TY.Tfloat64, sz⟩ true
              = Except.ok (Type_.size ⟨TY.Tfloat64, sz⟩ % 2 ^ 32)
            ∧ Target.alignsize (Param.ofOS OS.Windows b64 lp) t ⟨TY.Timaginary64, sz⟩ true
              = Except.ok (Type_.size ⟨TY.Timaginary64, sz⟩ % 2 ^ 32)
            ∧ Target.alignsize (Param.ofOS OS.Windows b64 lp) t ⟨TY.Tcomplex64, sz⟩ true
              = Except.ok (Type_.size ⟨TY.Tcomplex64, sz⟩ % 2 ^ 32))
      ∧ (∀ (b64 lp : Bool) (sz : Nat),
          Target.alignsize (Param.ofOS OS.OSX b64 lp) t ⟨TY.Tcomplex32, sz⟩ true
              = Except.ok 4
            ∧ Target.alignsize (Param.ofOS OS.OSX b64 lp) t ⟨TY.Tint64, sz⟩ true
              = Except.ok (if b64 = true then 8 else 4)
            ∧ Target.alignsize (Param.ofOS OS.OSX b64 lp) t ⟨TY.Tuns64, sz⟩ true
              = Except.ok (if b64 = true then 8 else 4)
            ∧ Target.alignsize (Param.ofOS OS.OSX b64 lp) t ⟨TY.Tfloat64, sz⟩ true
              = Except.ok (if b64 = true then 8 else 4)
            ∧ Target.alignsize (Param.ofOS OS.OSX b64 lp) t ⟨TY.Timaginary64, sz⟩ true
              = Except.ok (if b64 = true then 8 else 4)
            ∧ Target.alignsize (Param.ofOS OS.OSX b64 lp) t ⟨TY.Tcomplex64, sz⟩ true
              = Except.ok (if b64 = true then 8 else 4)) := by
  have main : Target.alignsize (Param.ofOS os is64bit isLP64) t type true
      = Except.ok (type.size % 2 ^ 32) := by
    rw [Target.alignsize_rules]
    obtain ⟨h1, h2, h3⟩ := h80
    by_cases hp : os.posixLike = true ∨ os = OS.OSX
    · obtain ⟨k1, k2, k3, k4, k5, k6⟩ := hrule hp
      simp [h1, h2, h3, k1, k2, k3, k4, k5, k6]
    · simp [h1, h2, h3, hp]
  refine ⟨main, fun hlt => ?_, fun b64 lp sz => ?_, fun b64 lp sz => ?_⟩
  · rw [main, Nat.mod_eq_of_lt hlt]
  · refine ⟨?_, ?_, ?_, ?_, ?_, ?_⟩ <;> rw [Target.alignsize_rules] <;>
      simp [OS.posixLike]
  · refine ⟨?_, ?_, ?_, ?_, ?_, ?_⟩ <;> rw [Target.alignsize_rules] <;> simp

/-- C16, amended, at a concrete input: `complex32` of size 8 on 64-bit
Windows. -/
theorem Target.alignsize_fallback_witness :
    Target.alignsize (Param.ofOS OS.Windows true true) sampleTarget ⟨TY.Tcomplex32, 8⟩ true
        = Except.ok 8 :=
  (Target.alignsize_fallback OS.Windows true true sampleTarget ⟨TY.Tcomplex32, 8⟩
    (by decide) (by decide)).1

/-! ## `Target::_init` as a function of the configuration -/

/-- With the three assertions passing, `initFloatConstants` returns properties
that depend on `numeric_limits<V>` alone. -/
theorem initFloatConstants_eq {real_t : Type} (l : NumericLimits real_t)
    (h : l.supported = true) :
    ∃ fp, ∀ old : FPTypeProperties real_t, initFloatConstants l old = Except.ok fp := by
  simp only [NumericLimits.supported, Bool.and_eq_true] at h
  obtain ⟨⟨h1, h2⟩, h3⟩ := h
  refine ⟨{ max := l.max, min_normal := l.min, nan := l.quiet_NaN,
            snan := l.signaling_NaN, infinity := l.infinity, epsilon := l.epsilon,
            dig := l.digits10, mant_dig := l.digits, max_exp := l.max_exponent,
            min_exp := l.min_exponent, max_10_exp := l.max_exponent10,
            min_10_exp := l.min_exponent10 }, fun old => ?_⟩
  simp [initFloatConstants, h1, h2, h3]

/-- On a host that passes the assertions of `initFloatConstants`, the tail of
`_init` overwrites the three property records with values that depend on the
host alone. -/
theorem Target.floatTail_eq {real_t : Type} (host : HostLimits real_t)
    (hs : host.supported = true) :
    ∃ a b c, ∀ t : Target real_t, Target.floatTail host t
      = Except.ok { t with FloatProperties := a, DoubleProperties := b,
                           RealProperties := c } := by
  simp only [HostLimits.supported, Bool.and_eq_true] at hs
  obtain ⟨⟨h1, h2⟩, h3⟩ := hs
  obtain ⟨a, ha⟩ := initFloatConstants_eq host.flt h1
  obtain ⟨b, hb⟩ := initFloatConstants_eq host.dbl h2
  obtain ⟨c, hc⟩ := initFloatConstants_eq host.ldbl h3
  refine ⟨a, b, c, fun t => ?_⟩
  simp [Target.floatTail, ha, hb, hc, bind, Except.bind, pure, Except.pure]

/-- C17, as stated, fails: on Linux `_init` does not assign
`reverseCppOverloads`, so two prior states that differ in that field give two
different values for it. -/
theorem Target.init_reverseCppOverloads_prior :
    ∃ t' u',
      Target._init sampleHost (Param.ofOS OS.Linux true true) sampleTarget = Except.ok t'
        ∧ Target._init sampleHost (Param.ofOS OS.Linux true true)
            { sampleTarget with reverseCppOverloads := true } = Except.ok u'
        ∧ t'.reverseCppOverloads = false ∧ u'.reverseCppOverloads = true :=
  ⟨_, _, rfl, rfl, rfl, rfl⟩

/-- C17, amended: on a supported configuration (and a host that passes the
assertions of `initFloatConstants`) `_init` completes from any two prior states
with the same `ptrsize`, `classinfosize`, `maxStaticDataSize`, `realsize`,
`realpad`, `realalignsize`, `c_longsize`, `c_long_doublesize` and
`cppExceptions`. On Windows `reverseCppOverloads` is `!is64bit` from either
state; on the other families `_init` leaves it at its prior value. Running
`_init` again on its own result gives that result. -/
theorem Target.init_deterministic {real_t : Type} (host : HostLimits real_t)
    (hs : host.supported = true) (os : OS) (is64bit isLP64 : Bool)
    (t u : Target real_t) :
    ∃ t' u', Target._init host (Param.ofOS os is64bit isLP64) t = Except.ok t'
      ∧ Target._init host (Param.ofOS os is64bit isLP64) u = Except.ok u'
      ∧ t'.ptrsize = u'.ptrsize
      ∧ t'.classinfosize = u'.classinfosize
      ∧ t'.maxStaticDataSize = u'.maxStaticDataSize
      ∧ t'.realsize = u'.realsize
      ∧ t'.realpad = u'.realpad
      ∧ t'.realalignsize = u'.realalignsize
      ∧ t'.c_longsize = u'.c_longsize
      ∧ t'.c_long_doublesize = u'.c_long_doublesize
      ∧ t'.cppExceptions = u'.cppExceptions
      ∧ (if os = OS.Windows
          then t'.reverseCppOverloads = !is64bit ∧ u'.reverseCppOverloads = !is64bit
          else t'.reverseCppOverloads = t.reverseCppOverloads
            ∧ u'.reverseCppOverloads = u.reverseCppOverloads)
      ∧ Target._init host (Param.ofOS os is64bit isLP64) t' = Except.ok t' := by
  obtain ⟨a, b, c, hft⟩ := Target.floatTail_eq host hs
  have key : ∃ t0 u0 t1,
      Target._init host (Param.ofOS os is64bit isLP64) t = Target.floatTail host t0
      ∧ Target._init host (Param.ofOS os is64bit isLP64) u = Target.floatTail host u0
      ∧ Target._init host (Param.ofOS os is64bit isLP64)
          { t0 with FloatProperties := a, DoubleProperties := b, RealProperties := c }
          = Target.floatTail host t1
      ∧ ({ t1 with FloatProperties := a, DoubleProperties := b, RealProperties := c }
          : Target real_t)
          = { t0 with FloatProperties := a, DoubleProperties := b, RealProperties := c }
      ∧ t0.ptrsize = u0.ptrsize
      ∧ t0.classinfosize = u0.classinfosize
      ∧ t0.maxStaticDataSize = u0.maxStaticDataSize
      ∧ t0.realsize = u0.realsize
      ∧ t0.realpad = u0.realpad
      ∧ t0.realalignsize = u0.realalignsize
      ∧ t0.c_longsize = u0.c_longsize
      ∧ t0.c_long_doublesize = u0.c_long_doublesize
      ∧ t0.cppExceptions = u0.cppExceptions
      ∧ (if os = OS.Windows
          then t0.reverseCppOverloads = !is64bit ∧ u0.reverseCppOverloads = !is64bit
          else t0.reverseCppOverloads = t.reverseCppOverloads
            ∧ u0.reverseCppOverloads = u.reverseCppOverloads) := by
    cases os <;> cases is64bit <;> cases isLP64 <;>
      exact ⟨_, _, _, rfl, rfl, rfl, rfl, rfl, rfl, rfl, rfl, rfl, rfl, rfl, rfl, rfl,
        ⟨rfl, rfl⟩⟩
  obtain ⟨t0, u0, t1, ht, hu, h1, h2, k⟩ := key
  refine ⟨_, _, ht.trans (hft t0), hu.trans (hft u0), ?_⟩
  refine ⟨k.1, k.2.1, k.2.2.1, k.2.2.2.1, k.2.2.2.2.1, k.2.2.2.2.2.1, k.2.2.2.2.2.2.1,
    k.2.2.2.2.2.2.2.1, k.2.2.2.2.2.2.2.2.1, k.2.2.2.2.2.2.2.2.2, ?_⟩
  rw [h1, hft t1, h2]

/-- C17, amended, at a concrete input: Linux, 64 bit, LP64, from the zeroed
state and from a state with `reverseCppOverloads` set. -/
theorem Target.init_deterministic_witness :
    sampleHost.supported = true
      ∧ ∃ t' u',
          Target._init sampleHost (Param.ofOS OS.Linux true true) sampleTarget
              = Except.ok t'
            ∧ Target._init sampleHost (Param.ofOS OS.Linux true true)
                { sampleTarget with reverseCppOverloads := true } = Except.ok u'
            ∧ t'.ptrsize = u'.ptrsize
            ∧ t'.classinfosize = u'.classinfosize
            ∧ t'.maxStaticDataSize = u'.maxStaticDataSize
            ∧ t'.realsize = u'.realsize
            ∧ t'.realpad = u'.realpad
            ∧ t'.realalignsize = u'.realalignsize
            ∧ t'.c_longsize = u'.c_longsize
            ∧ t'.c_long_doublesize = u'.c_long_doublesize
            ∧ t'.cppExceptions = u'.cppExceptions
            ∧ (if OS.Linux = OS.Windows
                then t'.reverseCppOverloads = !true ∧ u'.reverseCppOverloads = !true
                else t'.reverseCppOverloads = sampleTarget.reverseCppOverloads
                  ∧ u'.reverseCppOverloads
                    = ({ sampleTarget with reverseCppOverloads := true }
                        : Target SampleReal).reverseCppOverloads)
            ∧ Target._init sampleHost (Param.ofOS OS.Linux true true) t' = Except.ok t' :=
  ⟨by decide,
    Target.init_deterministic sampleHost (by decide) OS.Linux true true sampleTarget
      { sampleTarget with reverseCppOverloads := true }⟩

/-! ## Integer encoding and decoding -/

theorem getD_replicate_zero (n p : Nat) : (List.replicate n 0).getD p 0 = 0 := by
  simp

/-- The bytes of the zeroed buffer after `encodeInteger` of a 4 byte operand. -/
theorem encodeInteger_four_getD {real_t : Type} (e : Expression real_t)
    (h : e.type.size = 4) (p : Nat) :
    (encodeInteger e (List.replicate 64 0)).getD p 0
      = if p < 4 then ((e.toInteger % 2 ^ 64) >>> (p * 8)) &&& 0xFF else 0 := by
  have h255 : ∀ n : Nat, n &&& 255 = n % 256 :=
    fun n => Nat.and_pow_two_sub_one_eq_mod n 8
  rw [encodeInteger_four e h]
  rcases p with _ | _ | _ | _ | p
  · simp [h255]
  · simp [h255, Nat.shiftRight_eq_div_pow]
  · simp [h255, Nat.shiftRight_eq_div_pow]
  · simp [h255, Nat.shiftRight_eq_div_pow]
  · rw [if_neg (by omega)]
    simp only [List.cons_append, List.nil_append, List.getD_cons_succ, getD_replicate_zero]

/-- The bytes of the zeroed buffer after `encodeInteger` of an 8 byte operand. -/
theorem encodeInteger_eight_getD {real_t : Type} (e : Expression real_t)
    (h : e.type.size = 8) (p : Nat) :
    (encodeInteger e (List.replicate 64 0)).getD p 0
      = if p < 8 then ((e.toInteger % 2 ^ 64) >>> (p * 8)) &&& 0xFF else 0 := by
  have h255 : ∀ n : Nat, n &&& 255 = n % 256 :=
    fun n => Nat.and_pow_two_sub_one_eq_mod n 8
  rw [encodeInteger_eight e h]
  rcases p with _ | _ | _ | _ | _ | _ | _ | _ | p
  · simp [h255]
  · simp [h255, Nat.shiftRight_eq_div_pow]
  · simp [h255, Nat.shiftRight_eq_div_pow]
  · simp [h255, Nat.shiftRight_eq_div_pow]
  · simp [h255, Nat.shiftRight_eq_div_pow]
  · simp [h255, Nat.shiftRight_eq_div_pow]
  · simp [h255, Nat.shiftRight_eq_div_pow]
  · simp [h255, Nat.shiftRight_eq_div_pow]
  · rw [if_neg (by omega)]
    simp only [List.cons_append, List.nil_append, List.getD_cons_succ, getD_replicate_zero]

/-- `decodeInteger` of an 8 byte type reads the first eight bytes, least
significant first. -/
theorem decodeInteger_eight {real_t : Type} (loc : Loc) (type : Type_)
    (h : type.size = 8) (b0 b1 b2 b3 b4 b5 b6 b7 : Nat) (rest : List Nat)
    (h0 : b0 < 256) (h1 : b1 < 256) (h2 : b2 < 256) (h3 : b3 < 256)
    (h4 : b4 < 256) (h5 : b5 < 256) (h6 : b6 < 256) (h7 : b7 < 256) :
    (decodeInteger loc type (b0 :: b1 :: b2 :: b3 :: b4 :: b5 :: b6 :: b7 :: rest)
        : NewExpression real_t)
      = NewExpression.IntegerExp loc
          (b0 + b1 * 2 ^ 8 + b2 * 2 ^ 16 + b3 * 2 ^ 24 + b4 * 2 ^ 32 + b5 * 2 ^ 40
            + b6 * 2 ^ 48 + b7 * 2 ^ 56) type := by
  simp only [decodeInteger, h, toCInt]
  congr 1
  simp [List.range_succ, Nat.shiftLeft_eq]
  rw [Nat.mod_eq_of_lt (show b0 < 18446744073709551616 by omega),
    Nat.mod_eq_of_lt (show b1 * 256 < 18446744073709551616 by omega),
    Nat.mod_eq_of_lt (show b2 * 65536 < 18446744073709551616 by omega),
    Nat.mod_eq_of_lt (show b3 * 16777216 < 18446744073709551616 by omega),
    Nat.mod_eq_of_lt (show b4 * 4294967296 < 18446744073709551616 by omega),
    Nat.mod_eq_of_lt (show b5 * 1099511627776 < 18446744073709551616 by omega),
    Nat.mod_eq_of_lt (show b6 * 281474976710656 < 18446744073709551616 by omega),
    Nat.mod_eq_of_lt (show b7 * 72057594037927936 < 18446744073709551616 by omega)]
  have k1 := or_mul_eq_add b0 b1 8 (by omega)
  have k2 := or_mul_eq_add (b0 + b1 * 2 ^ 8) b2 16 (by omega)
  have k3 := or_mul_eq_add (b0 + b1 * 2 ^ 8 + b2 * 2 ^ 16) b3 24 (by omega)
  have k4 := or_mul_eq_add (b0 + b1 * 2 ^ 8 + b2 * 2 ^ 16 + b3 * 2 ^ 24) b4 32 (by omega)
  have k5 := or_mul_eq_add (b0 + b1 * 2 ^ 8 + b2 * 2 ^ 16 + b3 * 2 ^ 24 + b4 * 2 ^ 32)
    b5 40 (by omega)
  have k6 := or_mul_eq_add
    (b0 + b1 * 2 ^ 8 + b2 * 2 ^ 16 + b3 * 2 ^ 24 + b4 * 2 ^ 32 + b5 * 2 ^ 40) b6 48
    (by omega)
  have k7 := or_mul_eq_add
    (b0 + b1 * 2 ^ 8 + b2 * 2 ^ 16 + b3 * 2 ^ 24 + b4 * 2 ^ 32 + b5 * 2 ^ 40
      + b6 * 2 ^ 48) b7 56 (by omega)
  norm_num at k1 k2 k3 k4 k5 k6 k7
  rw [k1, k2, k3, k4, k5, k6, k7]

/-- C19: integer encode and decode is little-endian truncation. For an operand
whose type has size 4 or 8 and whose `toInteger()` is `v` (a 64 bit
`dinteger_t`), `encodeInteger` leaves byte `p` of the zeroed buffer equal to
`(v >> 8 p) & 0xFF` for `p < size` and every other byte 0, and `decodeInteger`
of that buffer at a type of the same size returns `v mod 2 ^ (8 size)`. Hence
`paintAsType` between two integer types of equal size returns the integer
constant of the target type that carries `v mod 2 ^ (8 size)`. -/
theorem encodeInteger_decodeInteger {real_t : Type} (e : Expression real_t)
    (type : Type_) (h : e.type.size = 4 ∨ e.type.size = 8)
    (ht : type.size = e.type.size) :
    (∀ p, (encodeInteger e (List.replicate 64 0)).getD p 0
        = if p < e.type.size then ((e.toInteger % 2 ^ 64) >>> (p * 8)) &&& 0xFF else 0)
      ∧ (encodeInteger e (List.replicate 64 0)).length = 64
      ∧ (∀ loc, (decodeInteger loc type (encodeInteger e (List.replicate 64 0))
            : NewExpression real_t)
          = NewExpression.IntegerExp loc
              (e.toInteger % 2 ^ 64 % 2 ^ (8 * e.type.size)) type)
      ∧ (∀ host : HostFloat real_t,
          (e.type.ty = TY.Tint32 ∨ e.type.ty = TY.Tuns32 ∨ e.type.ty = TY.Tint64
            ∨ e.type.ty = TY.Tuns64) →
          (type.ty = TY.Tint32 ∨ type.ty = TY.Tuns32 ∨ type.ty = TY.Tint64
            ∨ type.ty = TY.Tuns64) →
          Target.paintAsType host e type
            = Except.ok (NewExpression.IntegerExp e.loc
                (e.toInteger % 2 ^ 64 % 2 ^ (8 * e.type.size)) type)) := by
  have hdec : ∀ loc, (decodeInteger loc type (encodeInteger e (List.replicate 64 0))
        : NewExpression real_t)
      = NewExpression.IntegerExp loc
          (e.toInteger % 2 ^ 64 % 2 ^ (8 * e.type.size)) type := by
    intro loc
    rcases h with h | h
    · rw [encodeInteger_four e h, h]
      simp only [List.cons_append, List.nil_append]
      rw [decodeInteger_four loc type (ht.trans h) _ _ _ _ _ (Nat.mod_lt _ (by decide))
        (Nat.mod_lt _ (by decide)) (Nat.mod_lt _ (by decide)) (Nat.mod_lt _ (by decide)),
        bytes4_sum]
    · rw [encodeInteger_eight e h, h]
      simp only [List.cons_append, List.nil_append]
      rw [decodeInteger_eight loc type (ht.trans h) _ _ _ _ _ _ _ _ _
        (Nat.mod_lt _ (by decide)) (Nat.mod_lt _ (by decide)) (Nat.mod_lt _ (by decide))
        (Nat.mod_lt _ (by decide)) (Nat.mod_lt _ (by decide)) (Nat.mod_lt _ (by decide))
        (Nat.mod_lt _ (by decide)) (Nat.mod_lt _ (by decide)),
        bytes8_sum]
  refine ⟨fun p => ?_, ?_, hdec, fun host hs hd => ?_⟩
  · rcases h with h | h
    · rw [h]; exact encodeInteger_four_getD e h p
    · rw [h]; exact encodeInteger_eight_getD e h p
  · rcases h with h | h
    · rw [encodeInteger_four e h]; rfl
    · rw [encodeInteger_eight e h]; rfl
  · have hloc := hdec e.loc
    obtain ⟨loc, ⟨ty, os⟩, v, r⟩ := e
    obtain ⟨ty2, os2⟩ := type
    simp only at hs hd hloc ⊢
    rcases hs with rfl | rfl | rfl | rfl <;> rcases hd with rfl | rfl | rfl | rfl <;>
      simp [Type_.size] at ht <;>
      simp only [Target.paintAsType, Type_.size, bind, Except.bind, pure, Except.pure,
        ne_eq, not_true_eq_false, reduceIte] <;>
      exact congrArg Except.ok hloc

/-- C19 at a concrete input: the `int32` operand `0xFFFFFFFF12345678` decoded
as `uns32`. -/
theorem encodeInteger_decodeInteger_witness :
    (Type_.size ⟨TY.Tint32, 0⟩ = 4 ∨ Type_.size ⟨TY.Tint32, 0⟩ = 8)
      ∧ Type_.size ⟨TY.Tuns32, 0⟩ = Type_.size ⟨TY.Tint32, 0⟩
      ∧ (decodeInteger Loc.initial ⟨TY.Tuns32, 0⟩
            (encodeInteger
              (⟨Loc.initial, ⟨TY.Tint32, 0⟩, 0xFFFFFFFF12345678, SampleReal.nan⟩
                : Expression SampleReal)
              (List.replicate 64 0)) : NewExpression SampleReal)
          = NewExpression.IntegerExp Loc.initial 0x12345678 ⟨TY.Tuns32, 0⟩ :=
  ⟨Or.inl rfl, rfl,
    (encodeInteger_decodeInteger
      (⟨Loc.initial, ⟨TY.Tint32, 0⟩, 0xFFFFFFFF12345678, SampleReal.nan⟩
        : Expression SampleReal)
      ⟨TY.Tuns32, 0⟩ (Or.inl rfl) rfl).2.2.1 Loc.initial⟩

/-! ## Auxiliary facts about the IEEE 754 host -/

end Dmd
